import Mathlib

/-!
# threejs_maze_texture: `src/main.js`

A shallow embedding of `src/main.js` and the properties proved about it.

Conventions of the embedding.

* A JavaScript string is a `String`; the regular expression of `hexToRgb` is
  matched code unit by code unit, and no character outside the Basic
  Multilingual Plane is a hexadecimal digit, a `#` or white space, so reading
  the input as a list of `Char` changes no result.
* The two shaders are the texts that `createMat` builds. They are read by a
  lexer and a parser and run by an evaluator over the numbers of the GPU, whose
  operations (on `float` and `int`, the products of matrices, `mix`,
  `texture2D`) are parameters; exact arithmetic is one such GPU.
* `MazeGen` (imported from `./classes/MazeGen`) is a parameter of the
  definitions that use it.
* The texture loader is the environment: a call of `loader.load` leaves a
  pending request, which the environment later settles once, with success or
  with failure.
-/

namespace MazeTexture

/-! ## JavaScript values -/

/-- A JavaScript number as `parseInt` returns it: an integer value or `NaN`. -/
inductive JsNumber where
  | NaN
  | num (v : Int)
  deriving DecidableEq, Repr

/-- An uncaught JavaScript exception. -/
inductive JsError where
  | typeError (msg : String)
  deriving DecidableEq, Repr

/-! ## Regular expressions as far as `hexToRgb` uses them -/

/-- The constructs that occur in `/^#?([a-f\d]{2})([a-f\d]{2})([a-f\d]{2})$/i`. -/
inductive Re where
  /-- `^` (no `m` flag): the start of the input. -/
  | bol
  /-- `$` (no `m` flag): the end of the input. -/
  | eol
  /-- One character satisfying a test: a literal or a class. -/
  | cls (p : Char → Bool)
  /-- Greedy `r?`. -/
  | opt (r : Re)
  /-- Concatenation. -/
  | seq (r s : Re)
  /-- Capturing group number `i`. -/
  | grp (i : Nat) (r : Re)

/-- The state of the backtracking matcher: the index reached, the input that is
left, and the text of the groups captured so far. -/
structure MatchState where
  index : Nat
  rest : List Char
  captures : Nat → Option (List Char)

/-- The backtracking matcher in continuation style: `r.run s k` matches `r` at
state `s` and hands every end state to `k`, in priority order, until `k`
accepts one. -/
def Re.run : Re → MatchState → (MatchState → Option MatchState) → Option MatchState
  | .bol, s, k => if s.index = 0 then k s else none
  | .eol, s, k => if s.rest.isEmpty then k s else none
  | .cls p, s, k =>
    match s.rest with
    | c :: t => if p c then k { s with index := s.index + 1, rest := t } else none
    | [] => none
  | .opt r, s, k =>
    match r.run s k with
    | some e => some e
    | none => k s
  | .seq r t, s, k => r.run s (fun s1 => t.run s1 k)
  | .grp i r, s, k =>
    r.run s (fun s1 => k { s1 with
      captures := fun j => if j = i then some (s.rest.take (s1.index - s.index)) else s1.captures j })

/-- The loop of `RegExp.prototype.exec` for a pattern without the `g` and `y`
flags: the match is tried at index `i`, then at `i + 1`, up to the end of the
input. -/
def Re.execAt (re : Re) (i : Nat) : List Char → Option MatchState
  | [] => re.run ⟨i, [], fun _ => none⟩ some
  | c :: t =>
    match re.run ⟨i, c :: t, fun _ => none⟩ some with
    | some e => some e
    | none => re.execAt (i + 1) t

/-- The call `re.exec(input)`: `none` is `null`. -/
def Re.exec (re : Re) (input : String) : Option MatchState :=
  re.execAt 0 input.toList

/-- The element `result[i]` of a match result, as a string: a group that took no
part in the match is `undefined`, which `parseInt` reads as the text
`undefined`. -/
def MatchState.group (s : MatchState) (i : Nat) : List Char :=
  (s.captures i).getD "undefined".toList

/-- Canonicalisation of a code unit under the `i` flag, on the ASCII range: the
upper-case form. (No code unit above 127 is canonicalised to one below 128.) -/
def canonicalize (n : Nat) : Nat :=
  if 97 ≤ n ∧ n ≤ 122 then n - 32 else n

/-- The class `[a-f\d]` under the `i` flag: the canonical form of the character
is the canonical form of a member of `a-f` (that is, in `A-F`) or of a digit. -/
def hexClass (c : Char) : Bool :=
  let u := canonicalize c.toNat
  (decide (65 ≤ u) && decide (u ≤ 70)) || (decide (48 ≤ u) && decide (u ≤ 57))

/-- The literal `#`. -/
def sharpChar (c : Char) : Bool := c.toNat == 35

/-- The sub-pattern `[a-f\d]{2}`. -/
def hexPair : Re := .seq (.cls hexClass) (.cls hexClass)

/-- The part `([a-f\d]{2})([a-f\d]{2})([a-f\d]{2})$` of the pattern. -/
def hexTail : Re :=
  .seq (.grp 1 hexPair) (.seq (.grp 2 hexPair) (.seq (.grp 3 hexPair) .eol))

/-- The pattern `/^#?([a-f\d]{2})([a-f\d]{2})([a-f\d]{2})$/i`. -/
def hexPattern : Re :=
  .seq .bol (.seq (.opt (.cls sharpChar)) hexTail)

/-! ## `parseInt` -/

/-- The code points that `parseInt` skips at the start of its input: the
white-space and line-terminator characters of ECMAScript. -/
def isWhiteSpace (c : Char) : Bool :=
  let n := c.toNat
  n ∈ [9, 10, 11, 12, 13, 32, 160, 5760, 8232, 8233, 8239, 8287, 12288, 65279]
    || (decide (8192 ≤ n) && decide (n ≤ 8202))

/-- The value of a character as a digit, for radices up to 36. -/
def digitValue (c : Char) : Option Nat :=
  let n := c.toNat
  if 48 ≤ n ∧ n ≤ 57 then some (n - 48)
  else if 97 ≤ n ∧ n ≤ 122 then some (n - 87)
  else if 65 ≤ n ∧ n ≤ 90 then some (n - 55)
  else none

/-- The digits of the longest prefix of the input made of digits of the radix. -/
def takeDigits (radix : Nat) : List Char → List Nat
  | [] => []
  | c :: t =>
    match digitValue c with
    | some d => if d < radix then d :: takeDigits radix t else []
    | none => []

/-- The call `parseInt(string, radix)`: leading white space is skipped and a sign
is read; a radix other than 0 and outside `2..36` gives `NaN`; for radix 16 and
for radix 0 a leading `0x` or `0X` is dropped (and makes radix 0 mean 16, which
is 10 otherwise); the longest prefix of digits of the radix is the value, and
with no digit the result is `NaN`. The value is the mathematical one, which is
what JavaScript returns below 2^53; `-0` is 0. -/
def parseInt (string : List Char) (radix : Nat) : JsNumber :=
  let s := string.dropWhile isWhiteSpace
  let signed : Int × List Char :=
    match s with
    | '-' :: t => (-1, t)
    | '+' :: t => (1, t)
    | _ => (1, s)
  if radix ≠ 0 ∧ (radix < 2 ∨ 36 < radix) then .NaN
  else
    let stripLead : Bool := radix = 0 ∨ radix = 16
    let r0 : Nat := if radix = 0 then 10 else radix
    let based : Nat × List Char :=
      if stripLead then
        match signed.2 with
        | '0' :: 'x' :: t => (16, t)
        | '0' :: 'X' :: t => (16, t)
        | _ => (r0, signed.2)
      else (r0, signed.2)
    let ds := takeDigits based.1 based.2
    if ds.isEmpty then .NaN
    else .num (signed.1 * (ds.foldl (fun acc d => acc * based.1 + d) 0 : Nat))

/-! ## `hexToRgb` -/

/-- The object `{r, g, b}` that `hexToRgb` returns. -/
structure Rgb where
  r : JsNumber
  g : JsNumber
  b : JsNumber
  deriving DecidableEq, Repr

/-- The function `hexToRgb` of `main.js`: `none` is `null`. -/
def hexToRgb (hex : String) : Option Rgb :=
  match hexPattern.exec hex with
  | some result =>
    some { r := parseInt (result.group 1) 16
           g := parseInt (result.group 2) 16
           b := parseInt (result.group 3) 16 }
  | none => none


/-! ## The parameter list -/

/-- The object that `new params()` builds. The numeric fields are rationals:
the control panel can set them to values that are not integers. -/
structure Params where
  pathWidth : ℚ
  width : ℚ
  height : ℚ
  wall : ℚ
  wallColor : String
  pathColor : String
  objColor : String
  outerWall : ℚ
  seed : String
  deriving DecidableEq

/-- The value of `new params()`. -/
def params : Params where
  pathWidth := 15
  width := 10
  height := 10
  wall := 15
  wallColor := "#ffffff"
  pathColor := "#000000"
  objColor := "#460a50"
  outerWall := 5
  seed := "1"

/-- The properties that the constructor `params` assigns, in the order of the
source. -/
def paramsFields : List String :=
  ["pathWidth", "width", "height", "wall", "wallColor", "pathColor", "objColor", "outerWall",
    "seed"]

/-- A value that a controller of the panel writes to a property. -/
inductive JsValue where
  | number (v : ℚ)
  | string (s : String)
  deriving DecidableEq

/-- The assignment `paramList[property] = value` of a controller: `none` when
`params` defines no such property or the value has not the type of the
property. -/
def Params.set (p : Params) (property : String) (value : JsValue) : Option Params :=
  match value with
  | .number v =>
    if property = "pathWidth" then some { p with pathWidth := v }
    else if property = "width" then some { p with width := v }
    else if property = "height" then some { p with height := v }
    else if property = "wall" then some { p with wall := v }
    else if property = "outerWall" then some { p with outerWall := v }
    else none
  | .string s =>
    if property = "wallColor" then some { p with wallColor := s }
    else if property = "pathColor" then some { p with pathColor := s }
    else if property = "objColor" then some { p with objColor := s }
    else if property = "seed" then some { p with seed := s }
    else none

/-! ## `createMat` -/

/-- A `THREE.Vector3`. -/
structure Vector3 where
  x : ℚ
  y : ℚ
  z : ℚ
  deriving DecidableEq

/-- The texture that the loader hands to its listener: the image decoded from
the URI of the request. -/
structure Texture where
  image : String
  deriving DecidableEq

/-- The argument `{ texture: texture }` of `createMat`. -/
structure MatData where
  texture : Texture
  deriving DecidableEq

/-- The object `customUniforms` (the values of the three uniforms). -/
structure Uniforms where
  zTexture : Texture
  zScale : ℚ
  zLut : List Vector3
  deriving DecidableEq

/-- The rendering sides of three.js. -/
inductive Side where
  | FrontSide
  | BackSide
  | DoubleSide
  deriving DecidableEq

/-- The options given to `new THREE.ShaderMaterial`. -/
structure ShaderMaterial where
  uniforms : Uniforms
  vertexShader : String
  fragmentShader : String
  side : Side
  flatshading : Bool
  deriving DecidableEq

/-- The text that a template literal interpolates for a number. -/
def JsNumber.toJsString : JsNumber → String
  | .NaN => "NaN"
  | .num v => toString v

/-- The source of the vertex shader. -/
def vertexShaderSource : String :=
  "uniform sampler2D   zTexture;\n" ++
  "                            uniform float       zScale;\n" ++
  "                            uniform vec3        zLut[ 256 ];\n" ++
  "\n" ++
  "                            varying float vAmount;\n" ++
  "\n" ++
  "                            void main() \x7b\n" ++
  "                                vec4 heightData = texture2D( zTexture, uv );\n" ++
  "\n" ++
  "                                vAmount = heightData.r * 6.; \n" ++
  "\n" ++
  "                                // move the position along the normal\n" ++
  "                                vec3 newPosition = position + normal * zScale * vAmount;\n" ++
  "\n" ++
  "                                gl_Position = projectionMatrix * modelViewMatrix * vec4( newPosition, 0.5 );\n" ++
  "                            \x7d"

/-- The source of the fragment shader up to the first interpolation. -/
def fragmentShaderHead : String :=
  "uniform vec3 zLut[ 256 ];\n" ++
  "\n" ++
  "                            varying float vAmount;\n" ++
  "\n" ++
  "                            void main() \x7b\n" ++
  "                                int index = int(vAmount) * 255;\n" ++
  "                                float brightness = 9.;\n" ++
  "                                vec3 vColor = vec3(vAmount/brightness, vAmount/brightness, vAmount/brightness);\n" ++
  "                                //gl_FragColor = vec4(zLut[32], 1.0);\n" ++
  "                                vec3 col2 = vec3 (("

/-- The source of the fragment shader between two interpolations. -/
def fragmentShaderSep : String :=
  ".0 / 255.0), ("

/-- The source of the fragment shader after the last interpolation. -/
def fragmentShaderTail : String :=
  ".0 / 255.0));\n" ++
  "                                gl_FragColor = vec4(mix(vColor,col2,0.5), 1.0);\n" ++
  "                            \x7d"

/-- The source of the fragment shader, with the three components of the colour
interpolated. -/
def fragmentShaderSource (color : Rgb) : String :=
  fragmentShaderHead ++
  color.r.toJsString ++ fragmentShaderSep ++ color.g.toJsString ++ fragmentShaderSep ++
  color.b.toJsString ++
  fragmentShaderTail

/-- The function `createMat` of `main.js`, reading the global `paramList`. With
`color` null the template literal of the fragment shader throws a TypeError at
`color.r`. -/
def createMat (paramList : Params) (data : MatData) : Except JsError ShaderMaterial :=
  let texture := data.texture
  let color := hexToRgb paramList.objColor
  let zScale : ℚ := 1
  let lut : List Vector3 := List.replicate 256 ⟨1 / 2, 2 / 5, 3 / 10⟩
  let customUniforms : Uniforms := { zTexture := texture, zScale := zScale, zLut := lut }
  match color with
  | none => .error (.typeError "Cannot read properties of null (reading r)")
  | some color =>
    .ok { uniforms := customUniforms
          vertexShader := vertexShaderSource
          fragmentShader := fragmentShaderSource color
          side := .DoubleSide
          flatshading := true }

/-! ## GLSL, as far as the two shaders use it

The source of a shader is text. It is read by a lexer and a parser, and the
program read is run by an evaluator over the numbers `F` of the GPU: the
operations on `float`, the products of matrices and the texture lookup are
those of the GPU, of which nothing is assumed. -/

/-- A GLSL `vec2`. -/
structure Vec2 (F : Type) where
  x : F
  y : F
  deriving DecidableEq

/-- A GLSL `vec3`. -/
structure Vec3 (F : Type) where
  x : F
  y : F
  z : F
  deriving DecidableEq

/-- A GLSL `vec4`; the components `x y z w` are also `r g b a`. -/
structure Vec4 (F : Type) where
  x : F
  y : F
  z : F
  w : F
  deriving DecidableEq

/-- A GLSL `mat4`, by columns. -/
structure Mat4 (F : Type) where
  c0 : Vec4 F
  c1 : Vec4 F
  c2 : Vec4 F
  c3 : Vec4 F
  deriving DecidableEq

/-- The local `col2` of the fragment shader whose source interpolates the
integers `colorR`, `colorG`, `colorB`, in exact arithmetic. -/
def col2 (colorR colorG colorB : Int) : Vec3 ℚ :=
  ⟨(colorR : ℚ) / 255, (colorG : ℚ) / 255, (colorB : ℚ) / 255⟩

/-- What the GPU provides to a shader: the `float` of a decimal number, the
operations on `float`, the conversion `int(x)` and the product of two `int`,
the products of a `mat4` with a `mat4` and with a `vec4`, and the built-ins
`mix` (on `float`) and `texture2D`. -/
structure Gpu (F : Type) where
  lit : ℚ → F
  add : F → F → F
  mul : F → F → F
  div : F → F → F
  toInt : F → Int
  mulInt : Int → Int → Int
  mulMat : Mat4 F → Mat4 F → Mat4 F
  mulMatVec : Mat4 F → Vec4 F → Vec4 F
  mix : F → F → F → F
  texture2D : Texture → Vec2 F → Vec4 F

/-- A token of the source of a shader. A number is `mantissa / 10 ^ decimals`,
and is a `float` when it is written with a point. -/
inductive Token where
  | ident (name : String)
  | number (mantissa : Nat) (decimals : Nat) (isFloat : Bool)
  | sym (c : Char)
  deriving DecidableEq

/-- What the lexer is reading: nothing, a word (its characters in reverse), the
integer part or the fraction of a number, a `/` that may open a comment, or a
`//` comment. -/
inductive LexMode where
  | idle
  | word (cs : List Char)
  | intLit (n : Nat)
  | fracLit (mantissa : Nat) (decimals : Nat)
  | slash
  | comment
  deriving DecidableEq

/-- A letter or an underscore. -/
def isLetter (c : Char) : Bool :=
  let n := c.toNat
  (decide (97 ≤ n) && decide (n ≤ 122)) || (decide (65 ≤ n) && decide (n ≤ 90)) || n == 95

/-- A decimal digit. -/
def isDigit (c : Char) : Bool :=
  decide (48 ≤ c.toNat) && decide (c.toNat ≤ 57)

/-- A white-space character. -/
def isBlank (c : Char) : Bool :=
  c.toNat == 32 || c.toNat == 10 || c.toNat == 9 || c.toNat == 13

/-- The tokens that end when the lexer leaves a mode, last first. -/
def LexMode.flush : LexMode → List Token
  | .idle => []
  | .word cs => [.ident (String.mk cs.reverse)]
  | .intLit n => [.number n 0 false]
  | .fracLit m k => [.number m k true]
  | .slash => [.sym '/']
  | .comment => []

/-- The lexer meets a character with nothing being read: the mode it enters and
the tokens it emits. -/
def lexStart (c : Char) : LexMode × List Token :=
  if isLetter c then (.word [c], [])
  else if isDigit c then (.intLit (c.toNat - 48), [])
  else if c.toNat == 47 then (.slash, [])
  else if isBlank c then (.idle, [])
  else (.idle, [.sym c])

/-- One character of the source: the new mode and the tokens read so far, last
first. -/
def lexStep (s : LexMode × List Token) (c : Char) : LexMode × List Token :=
  let restart : LexMode × List Token :=
    ((lexStart c).1, (lexStart c).2 ++ (s.1.flush ++ s.2))
  match s.1 with
  | .idle => restart
  | .word cs => if isLetter c || isDigit c then (.word (c :: cs), s.2) else restart
  | .intLit n =>
    if isDigit c then (.intLit (10 * n + (c.toNat - 48)), s.2)
    else if c.toNat == 46 then (.fracLit n 0, s.2)
    else restart
  | .fracLit m k =>
    if isDigit c then (.fracLit (10 * m + (c.toNat - 48)) (k + 1), s.2) else restart
  | .slash => if c.toNat == 47 then (.comment, s.2) else restart
  | .comment => if c.toNat == 10 then (.idle, s.2) else (.comment, s.2)

/-- The tokens of a source. -/
def lex (source : String) : List Token :=
  let s := source.toList.foldl lexStep (.idle, [])
  (s.1.flush ++ s.2).reverse

/-- An expression. The arguments of a call are joined by `comma`. -/
inductive Expr where
  | number (mantissa : Nat) (decimals : Nat) (isFloat : Bool)
  | var (name : String)
  | field (e : Expr) (name : String)
  | add (a b : Expr)
  | mul (a b : Expr)
  | div (a b : Expr)
  | call (f : String) (args : Expr)
  | comma (a b : Expr)
  deriving DecidableEq

/-- A statement of `main`: a declaration with its initial value or an
assignment. -/
inductive Stmt where
  | declare (type name : String) (value : Expr)
  | assign (name : String) (value : Expr)
  deriving DecidableEq

/-- A declaration at top level: `uniform`, `varying` or `attribute`, the type,
the name and the size when it is an array. -/
structure Global where
  storage : String
  type : String
  name : String
  size : Option Nat
  deriving DecidableEq

/-- A shader: its globals and the body of `main`. -/
structure Shader where
  globals : List Global
  body : List Stmt
  deriving DecidableEq

/-- What the expression parser is to read: an expression, a product, an access
expression, a primary one, the arguments of a call, or what follows a left
operand already read. -/
inductive Goal where
  | expr
  | term
  | access
  | primary
  | args
  | exprTail (left : Expr)
  | termTail (left : Expr)
  | accessTail (left : Expr)

/-- The expression parser, by recursive descent: `+` binds less than `*` and `/`,
which bind less than `.field`; all associate to the left. -/
def parseExpr : Nat → Goal → List Token → Option (Expr × List Token)
  | 0, _, _ => none
  | fuel + 1, .expr, ts =>
    match parseExpr fuel .term ts with
    | some (l, ts1) => parseExpr fuel (.exprTail l) ts1
    | none => none
  | fuel + 1, .exprTail l, ts =>
    match ts with
    | .sym '+' :: ts1 =>
      match parseExpr fuel .term ts1 with
      | some (r, ts2) => parseExpr fuel (.exprTail (.add l r)) ts2
      | none => none
    | _ => some (l, ts)
  | fuel + 1, .term, ts =>
    match parseExpr fuel .access ts with
    | some (l, ts1) => parseExpr fuel (.termTail l) ts1
    | none => none
  | fuel + 1, .termTail l, ts =>
    match ts with
    | .sym '*' :: ts1 =>
      match parseExpr fuel .access ts1 with
      | some (r, ts2) => parseExpr fuel (.termTail (.mul l r)) ts2
      | none => none
    | .sym '/' :: ts1 =>
      match parseExpr fuel .access ts1 with
      | some (r, ts2) => parseExpr fuel (.termTail (.div l r)) ts2
      | none => none
    | _ => some (l, ts)
  | fuel + 1, .access, ts =>
    match parseExpr fuel .primary ts with
    | some (p, ts1) => parseExpr fuel (.accessTail p) ts1
    | none => none
  | fuel + 1, .accessTail p, ts =>
    match ts with
    | .sym '.' :: .ident n :: ts1 => parseExpr fuel (.accessTail (.field p n)) ts1
    | _ => some (p, ts)
  | fuel + 1, .primary, ts =>
    match ts with
    | .number m k fl :: ts1 => some (.number m k fl, ts1)
    | .ident n :: .sym '(' :: ts1 =>
      match parseExpr fuel .args ts1 with
      | some (a, .sym ')' :: ts2) => some (.call n a, ts2)
      | _ => none
    | .ident n :: ts1 => some (.var n, ts1)
    | .sym '(' :: ts1 =>
      match parseExpr fuel .expr ts1 with
      | some (e, .sym ')' :: ts2) => some (e, ts2)
      | _ => none
    | _ => none
  | fuel + 1, .args, ts =>
    match parseExpr fuel .expr ts with
    | some (e, .sym ',' :: ts1) =>
      match parseExpr fuel .args ts1 with
      | some (r, ts2) => some (.comma e r, ts2)
      | none => none
    | some (e, ts1) => some (e, ts1)
    | none => none

/-- The statements of `main` up to its closing brace, which must end the
source. -/
def parseStmts : Nat → List Token → Option (List Stmt)
  | 0, _ => none
  | _ + 1, [.sym '}'] => some []
  | fuel + 1, .ident t :: .ident n :: .sym '=' :: ts =>
    match parseExpr (4 * ts.length + 4) .expr ts with
    | some (e, .sym ';' :: ts1) =>
      match parseStmts fuel ts1 with
      | some rest => some (.declare t n e :: rest)
      | none => none
    | _ => none
  | fuel + 1, .ident n :: .sym '=' :: ts =>
    match parseExpr (4 * ts.length + 4) .expr ts with
    | some (e, .sym ';' :: ts1) =>
      match parseStmts fuel ts1 with
      | some rest => some (.assign n e :: rest)
      | none => none
    | _ => none
  | _ + 1, _ => none

/-- The globals of a shader, then `void main() { ... }`. -/
def parseGlobals : Nat → List Token → Option Shader
  | 0, _ => none
  | fuel + 1, .ident "void" :: .ident "main" :: .sym '(' :: .sym ')' :: .sym '{' :: ts =>
    match parseStmts fuel ts with
    | some body => some ⟨[], body⟩
    | none => none
  | fuel + 1, .ident q :: .ident t :: .ident n :: .sym ';' :: ts =>
    if q = "uniform" ∨ q = "varying" ∨ q = "attribute" then
      match parseGlobals fuel ts with
      | some sh => some ⟨⟨q, t, n, none⟩ :: sh.globals, sh.body⟩
      | none => none
    else none
  | fuel + 1,
      .ident q :: .ident t :: .ident n :: .sym '[' :: .number k 0 false :: .sym ']' :: .sym ';'
        :: ts =>
    if q = "uniform" ∨ q = "varying" ∨ q = "attribute" then
      match parseGlobals fuel ts with
      | some sh => some ⟨⟨q, t, n, some k⟩ :: sh.globals, sh.body⟩
      | none => none
    else none
  | _ + 1, _ => none

/-- The shader that a source text is; `none` when the text is outside the part of
GLSL read here. -/
def parseShader (source : String) : Option Shader :=
  parseGlobals ((lex source).length + 1) (lex source)

/-- A value of a shader. -/
inductive Value (F : Type) where
  | float (x : F)
  | int (i : Int)
  | vec2 (v : Vec2 F)
  | vec3 (v : Vec3 F)
  | vec4 (v : Vec4 F)
  | mat4 (m : Mat4 F)
  | sampler2D (t : Texture)
  | vec3Array (vs : List (Vec3 F))

/-- The variables of a shader and their values, the latest first. -/
abbrev Env (F : Type) := List (String × Value F)

/-- The value has the type named. -/
def Value.hasType {F : Type} : Value F → String → Bool
  | .float _, t => t == "float"
  | .int _, t => t == "int"
  | .vec2 _, t => t == "vec2"
  | .vec3 _, t => t == "vec3"
  | .vec4 _, t => t == "vec4"
  | .mat4 _, t => t == "mat4"
  | .sampler2D _, t => t == "sampler2D"
  | .vec3Array _, _ => false

/-- The component of a `vec4` that a one-letter field names. -/
def Vec4.component {F : Type} (v : Vec4 F) (name : String) : Option F :=
  if name = "r" ∨ name = "x" then some v.x
  else if name = "g" ∨ name = "y" then some v.y
  else if name = "b" ∨ name = "z" then some v.z
  else if name = "a" ∨ name = "w" then some v.w
  else none

/-- The component of a `vec3` that a one-letter field names. -/
def Vec3.component {F : Type} (v : Vec3 F) (name : String) : Option F :=
  if name = "r" ∨ name = "x" then some v.x
  else if name = "g" ∨ name = "y" then some v.y
  else if name = "b" ∨ name = "z" then some v.z
  else none

/-- The operator `+`: on two `float`, or component by component on two vectors
of the same size. -/
def Value.add {F : Type} (G : Gpu F) : Value F → Value F → Option (Value F)
  | .float x, .float y => some (.float (G.add x y))
  | .vec3 u, .vec3 v => some (.vec3 ⟨G.add u.x v.x, G.add u.y v.y, G.add u.z v.z⟩)
  | .vec4 u, .vec4 v =>
    some (.vec4 ⟨G.add u.x v.x, G.add u.y v.y, G.add u.z v.z, G.add u.w v.w⟩)
  | _, _ => none

/-- The operator `*`: on two `float`, on two `int`, of a vector and a `float`
component by component, and the products of matrices. -/
def Value.mul {F : Type} (G : Gpu F) : Value F → Value F → Option (Value F)
  | .float x, .float y => some (.float (G.mul x y))
  | .int i, .int j => some (.int (G.mulInt i j))
  | .vec3 u, .float s => some (.vec3 ⟨G.mul u.x s, G.mul u.y s, G.mul u.z s⟩)
  | .float s, .vec3 u => some (.vec3 ⟨G.mul s u.x, G.mul s u.y, G.mul s u.z⟩)
  | .vec4 u, .float s => some (.vec4 ⟨G.mul u.x s, G.mul u.y s, G.mul u.z s, G.mul u.w s⟩)
  | .mat4 m, .mat4 n => some (.mat4 (G.mulMat m n))
  | .mat4 m, .vec4 v => some (.vec4 (G.mulMatVec m v))
  | _, _ => none

/-- The operator `/`: on two `float`, and of a vector by a `float`. -/
def Value.div {F : Type} (G : Gpu F) : Value F → Value F → Option (Value F)
  | .float x, .float y => some (.float (G.div x y))
  | .vec3 u, .float s => some (.vec3 ⟨G.div u.x s, G.div u.y s, G.div u.z s⟩)
  | _, _ => none

/-- The calls read here: the built-ins `texture2D` and `mix` (on vectors
component by component), the conversion `int` and the constructors `vec2`,
`vec3` and `vec4`. -/
def Value.call {F : Type} (G : Gpu F) : String → List (Value F) → Option (Value F)
  | "texture2D", [.sampler2D t, .vec2 uv] => some (.vec4 (G.texture2D t uv))
  | "mix", [.float x, .float y, .float a] => some (.float (G.mix x y a))
  | "mix", [.vec3 u, .vec3 v, .float a] =>
    some (.vec3 ⟨G.mix u.x v.x a, G.mix u.y v.y a, G.mix u.z v.z a⟩)
  | "int", [.float x] => some (.int (G.toInt x))
  | "vec2", [.float x, .float y] => some (.vec2 ⟨x, y⟩)
  | "vec3", [.float x, .float y, .float z] => some (.vec3 ⟨x, y, z⟩)
  | "vec4", [.float x, .float y, .float z, .float w] => some (.vec4 ⟨x, y, z, w⟩)
  | "vec4", [.vec3 v, .float w] => some (.vec4 ⟨v.x, v.y, v.z, w⟩)
  | _, _ => none

/-- The value of an expression; the arguments of a call give a list. -/
def eval {F : Type} (G : Gpu F) (env : Env F) : Expr → Option (List (Value F))
  | .number m k true => some [.float (G.lit ((m : ℚ) / 10 ^ k))]
  | .number m _ false => some [.int m]
  | .var n =>
    match env.lookup n with
    | some v => some [v]
    | none => none
  | .field e n =>
    match eval G env e with
    | some [.vec4 v] =>
      match v.component n with
      | some x => some [.float x]
      | none => none
    | some [.vec3 v] =>
      match v.component n with
      | some x => some [.float x]
      | none => none
    | _ => none
  | .add a b =>
    match eval G env a, eval G env b with
    | some [x], some [y] =>
      match Value.add G x y with
      | some v => some [v]
      | none => none
    | _, _ => none
  | .mul a b =>
    match eval G env a, eval G env b with
    | some [x], some [y] =>
      match Value.mul G x y with
      | some v => some [v]
      | none => none
    | _, _ => none
  | .div a b =>
    match eval G env a, eval G env b with
    | some [x], some [y] =>
      match Value.div G x y with
      | some v => some [v]
      | none => none
    | _, _ => none
  | .call f args =>
    match eval G env args with
    | some vs =>
      match Value.call G f vs with
      | some v => some [v]
      | none => none
    | none => none
  | .comma a b =>
    match eval G env a, eval G env b with
    | some [x], some vs => some (x :: vs)
    | _, _ => none

/-- The statements of `main`, in order. -/
def exec {F : Type} (G : Gpu F) : List Stmt → Env F → Option (Env F)
  | [], env => some env
  | .declare t n e :: rest, env =>
    match eval G env e with
    | some [v] => if v.hasType t then exec G rest ((n, v) :: env) else none
    | _ => none
  | .assign n e :: rest, env =>
    match eval G env e with
    | some [v] => exec G rest ((n, v) :: env)
    | _ => none

/-- The outputs of the vertex shader. -/
structure VertexOut (F : Type) where
  vAmount : F
  gl_Position : Vec4 F
  deriving DecidableEq

/-- The vertex shader of a material runs on a vertex: the source is parsed and
`main` is run with the uniforms of the material and with the matrices and the
attributes that three.js provides. -/
def runVertexShader {F : Type} (G : Gpu F) (source : String) (u : Uniforms)
    (projectionMatrix modelViewMatrix : Mat4 F) (position normal : Vec3 F) (uv : Vec2 F) :
    Option (VertexOut F) :=
  match parseShader source with
  | none => none
  | some shader =>
    let env : Env F :=
      [ ("zTexture", .sampler2D u.zTexture),
        ("zScale", .float (G.lit u.zScale)),
        ("zLut", .vec3Array (u.zLut.map (fun v => ⟨G.lit v.x, G.lit v.y, G.lit v.z⟩))),
        ("projectionMatrix", .mat4 projectionMatrix),
        ("modelViewMatrix", .mat4 modelViewMatrix),
        ("position", .vec3 position),
        ("normal", .vec3 normal),
        ("uv", .vec2 uv) ]
    match exec G shader.body env with
    | none => none
    | some out =>
      match out.lookup "gl_Position", out.lookup "vAmount" with
      | some (.vec4 p), some (.float a) => some ⟨a, p⟩
      | _, _ => none

/-- The fragment shader of a material runs on a fragment, with the value of the
varying `vAmount` that the rasteriser gives to it. -/
def runFragmentShader {F : Type} (G : Gpu F) (source : String) (u : Uniforms) (vAmount : F) :
    Option (Vec4 F) :=
  match parseShader source with
  | none => none
  | some shader =>
    let env : Env F :=
      [ ("zLut", .vec3Array (u.zLut.map (fun v => ⟨G.lit v.x, G.lit v.y, G.lit v.z⟩))),
        ("vAmount", .float vAmount) ]
    match exec G shader.body env with
    | none => none
    | some out =>
      match out.lookup "gl_FragColor" with
      | some (.vec4 c) => some c
      | _ => none

/-! ## The program state and its events -/

/-- The arguments of `new THREE.SphereGeometry`. -/
structure SphereGeometry where
  radius : ℚ
  widthSegments : Nat
  heightSegments : Nat
  deriving DecidableEq

/-- A `THREE.Mesh`, as far as the program sets it. The rotation is in units of
pi radians: `-Math.PI / 2` is `-1/2`. -/
structure Mesh where
  geometry : SphereGeometry
  material : ShaderMaterial
  rotation : Vector3
  position : Vector3
  deriving DecidableEq

/-- The two arrow functions that the program passes to `loadHeightMap`. -/
inductive Callback where
  /-- `(mat) => { mazeSphere.material = mat; }`, in `paramHandler`. -/
  | setMaterial
  /-- `(mat) => { ... mazeSphere = new THREE.Mesh(sphereGeo, mat); ... scene.add(mazeSphere); }`,
  at top level. -/
  | addSphere
  deriving DecidableEq

/-- A call `loader.load(uri, listener)` that the loader has not settled yet.
The listener is the function of `loadHeightMap`, which `cb` determines; `cb` is
`none` when the second argument of `loadHeightMap` is not a function. -/
structure Request where
  uri : String
  cb : Option Callback
  deriving DecidableEq

/-- An object added to the scene. A mesh is held by reference: the index of the
mesh among the meshes created. -/
inductive SceneObject where
  | pointLight (color : Nat) (position : Vector3)
  | ambientLight (color : Nat)
  | directionalLight (color : Nat) (position : Vector3)
  | mesh (ref : Nat)
  deriving DecidableEq

/-- The state of the program: the globals `paramList`, `mazeSphere` and `scene`,
the meshes created, the requests pending in the loader, and the exceptions that
no handler caught. -/
structure World where
  paramList : Params
  meshes : List Mesh
  mazeSphere : Option Nat
  scene : List SceneObject
  pending : List Request
  uncaught : List JsError
  deriving DecidableEq

/-- The generator `new MazeGen(plist).getDataURL()` of `./classes/MazeGen`, as a
function of the parameter list (which it is taken not to modify). -/
abbrev MazeGen := Params → String

/-- The function `initMaze` of `main.js`. -/
def initMaze (mazeGen : MazeGen) (plist : Params) : String :=
  mazeGen plist

/-- The call `cb(customMaterial)` for each of the two callbacks. -/
def Callback.call : Callback → ShaderMaterial → World → Except JsError World
  | .setMaterial, mat, w =>
    match w.mazeSphere with
    | none => .error (.typeError "Cannot set properties of undefined (setting material)")
    | some ref =>
      match w.meshes[ref]? with
      | none => .error (.typeError "Cannot set properties of undefined (setting material)")
      | some m => .ok { w with meshes := w.meshes.set ref { m with material := mat } }
  | .addSphere, mat, w =>
    let sphereGeo : SphereGeometry := ⟨25, 100, 100⟩
    let mesh : Mesh :=
      { geometry := sphereGeo, material := mat, rotation := ⟨-1 / 2, 0, 0⟩, position := ⟨0, 0, 0⟩ }
    let ref := w.meshes.length
    .ok { w with
      meshes := w.meshes ++ [mesh]
      mazeSphere := some ref
      scene := w.scene ++ [.mesh ref] }

/-- The listener `function ( texture ) { ... }` that `loadHeightMap` gives to the
loader. -/
def onLoad (cb : Option Callback) (texture : Texture) (w : World) : Except JsError World :=
  match createMat w.paramList { texture := texture } with
  | .error e => .error e
  | .ok customMaterial =>
    match cb with
    | some f => f.call customMaterial w
    | none => .ok w

/-- The function `loadHeightMap` of `main.js`: it creates a loader and calls
`loader.load(uri, listener)` with no `onError` listener. -/
def loadHeightMap (uri : String) (cb : Option Callback) (w : World) : World :=
  { w with pending := w.pending ++ [⟨uri, cb⟩] }

/-- The function `paramHandler` of `main.js`. -/
def paramHandler (mazeGen : MazeGen) (w : World) : World :=
  let uri := initMaze mazeGen w.paramList
  let _h := hexToRgb w.paramList.objColor
  loadHeightMap uri (some .setMaterial) w

/-- The function `init` of `main.js`, as far as the state goes: the three lights
added to the scene. -/
def init (w : World) : World :=
  { w with scene := w.scene ++
      [.pointLight 0xffffff ⟨0, 10, 20⟩, .ambientLight 0x808080,
        .directionalLight 0xc0c0c0 ⟨5, 20, 12⟩] }

/-- The top-level statements of `main.js`: the state when the script has run. -/
def main (mazeGen : MazeGen) : World :=
  let paramList := params
  let dataURI := initMaze mazeGen paramList
  let w : World :=
    { paramList := paramList, meshes := [], mazeSphere := none, scene := [], pending := [],
      uncaught := [] }
  loadHeightMap dataURI (some .addSphere) (init w)

/-- How the loader settles a request: the `load` or the `error` event of the
image. -/
inductive Outcome where
  | load
  | error
  deriving DecidableEq

/-- The loader settles the pending request number `i`. On `load` it calls the
listener with the texture of the URI; an exception of the listener is uncaught.
On `error` it has no listener to call. -/
def settle (i : Nat) (o : Outcome) (w : World) : World :=
  match w.pending[i]? with
  | none => w
  | some rq =>
    let w1 := { w with pending := w.pending.eraseIdx i }
    match o with
    | .error => w1
    | .load =>
      match onLoad rq.cb ⟨rq.uri⟩ w1 with
      | .ok w2 => w2
      | .error e => { w1 with uncaught := w1.uncaught ++ [e] }

/-! ## The control panel -/

/-- The functions of `main.js` that the program registers as listeners. -/
inductive Listener where
  | paramHandler
  | onWindowResize
  deriving DecidableEq

/-- A controller of the panel: `gui.add` or `gui.addColor` on a property of
`paramList`, its label, and its `onChange` listener. -/
structure Controller where
  color : Bool
  property : String
  name : String
  onChange : Option Listener
  deriving DecidableEq

/-- The nine controllers that the top level adds to the panel. -/
def gui : List Controller :=
  [ ⟨false, "pathWidth", "Width of the Maze Path", some .paramHandler⟩,
    ⟨false, "width", "Number paths fitted horisontally", some .paramHandler⟩,
    ⟨false, "height", "Number paths fitted vertically", some .paramHandler⟩,
    ⟨false, "wall", "Width of the Walls between Paths", some .paramHandler⟩,
    ⟨false, "outerWall", "Width of the Outer most wall", some .paramHandler⟩,
    ⟨true, "wallColor", "Heightmap Wall Color Differential", some .paramHandler⟩,
    ⟨true, "pathColor", "Heightmap Path Color Differential", some .paramHandler⟩,
    ⟨true, "objColor", "Sphere Base Color", some .paramHandler⟩,
    ⟨false, "seed", "Seed for the Random Number Generator", some .paramHandler⟩ ]

/-- A listener runs. `onWindowResize` touches the camera and the renderer only. -/
def Listener.run (mazeGen : MazeGen) : Listener → World → World
  | .paramHandler, w => MazeTexture.paramHandler mazeGen w
  | .onWindowResize, w => w

/-- The user changes controller number `i` to `value`: the controller assigns the
property and then calls its `onChange` listener. -/
def guiSetValue (mazeGen : MazeGen) (i : Nat) (value : JsValue) (w : World) : World :=
  match gui[i]? with
  | none => w
  | some c =>
    match w.paramList.set c.property value with
    | none => w
    | some p =>
      let w1 := { w with paramList := p }
      match c.onChange with
      | some l => l.run mazeGen w1
      | none => w1

/-- An event after the script has run. -/
inductive Event where
  | change (i : Nat) (value : JsValue)
  | settle (i : Nat) (o : Outcome)
  deriving DecidableEq

/-- One event. -/
def step (mazeGen : MazeGen) (w : World) : Event → World
  | .change i value => guiSetValue mazeGen i value w
  | .settle i o => settle i o w

/-- A sequence of events, from a state. -/
def run (mazeGen : MazeGen) (w : World) (events : List Event) : World :=
  events.foldl (step mazeGen) w

/-! ## Specification side: colour strings -/

/-- A hexadecimal digit: `0`-`9`, `a`-`f` or `A`-`F`. -/
def isHexDigit (c : Char) : Bool :=
  let n := c.toNat
  (decide (48 ≤ n) && decide (n ≤ 57)) || (decide (97 ≤ n) && decide (n ≤ 102))
    || (decide (65 ≤ n) && decide (n ≤ 70))

/-- Exactly six hexadecimal digits. -/
def isSixHex (body : List Char) : Bool :=
  body.length == 6 && body.all isHexDigit

/-- An optional single `#` followed by exactly six hexadecimal digits and
nothing else. -/
def isHexColour (hex : String) : Bool :=
  match hex.toList with
  | [] => false
  | c :: t => isSixHex (c :: t) || (c == '#' && isSixHex t)

/-- The value of a hexadecimal digit. -/
def hexDigitValue (c : Char) : Nat :=
  let n := c.toNat
  if n ≤ 57 then n - 48 else if n ≤ 70 then n - 55 else n - 87

/-- The 22 hexadecimal digits. -/
def hexDigits : List Char := "0123456789abcdefABCDEF".toList


/-- The number that two hexadecimal digits write. -/
def byteOf (c1 c2 : Char) : JsNumber :=
  .num (16 * hexDigitValue c1 + hexDigitValue c2 : Nat)

/-- The character of the hexadecimal digit of value `d`, in upper or in lower
case. -/
def hexDigitChar (upper : Bool) (d : Nat) : Char :=
  if d < 10 then Char.ofNat (48 + d)
  else if upper then Char.ofNat (55 + d)
  else Char.ofNat (87 + d)

/-- The two-digit base-16 rendering of `v`, each digit in the case chosen. -/
def hexByte (u1 u2 : Bool) (v : Nat) : List Char :=
  [hexDigitChar u1 (v / 16), hexDigitChar u2 (v % 16)]

/-- The colour string of the components `r`, `g`, `b`: an optional `#` and the
three two-digit renderings. -/
def colourString (sharp : Bool) (u : Fin 6 → Bool) (r g b : Nat) : String :=
  String.mk ((if sharp then ['#'] else []) ++
    (hexByte (u 0) (u 1) r ++ (hexByte (u 2) (u 3) g ++ hexByte (u 4) (u 5) b)))

/-! ## Specification side: brightness, exact arithmetic and positions -/

/-- Brightness as the mean of the three colour channels. -/
def brightnessMean (p : Vec4 ℚ) : ℚ := (p.x + p.y + p.z) / 3

/-- Brightness as the luma of Rec. 709. -/
def brightnessLuma (p : Vec4 ℚ) : ℚ :=
  2126 / 10000 * p.x + 7152 / 10000 * p.y + 722 / 10000 * p.z

/-- Brightness as the value of HSV: the largest channel. -/
def brightnessValue (p : Vec4 ℚ) : ℚ := max p.x (max p.y p.z)

/-- A grey pixel: the three colour channels are equal. -/
def isGrey (p : Vec4 ℚ) : Prop := p.x = p.y ∧ p.y = p.z

/-- The position `p + n * zScale * 6 * b`, with `zScale = 1`. -/
def displacedBy (p n : Vec3 ℚ) (b : ℚ) : Vec3 ℚ :=
  ⟨p.x + n.x * 1 * 6 * b, p.y + n.y * 1 * 6 * b, p.z + n.z * 1 * 6 * b⟩

/-- A point of space as a homogeneous position of last coordinate `w`. -/
def homogeneous (q : Vec3 ℚ) (w : ℚ) : Vec4 ℚ := ⟨q.x, q.y, q.z, w⟩

/-- The point of space that a homogeneous position denotes. -/
def Vec4.point (v : Vec4 ℚ) : Vec3 ℚ := ⟨v.x / v.w, v.y / v.w, v.z / v.w⟩

/-- A point of space, twice as far from the origin. -/
def Vec3.twice (q : Vec3 ℚ) : Vec3 ℚ := ⟨2 * q.x, 2 * q.y, 2 * q.z⟩

/-- Sum of two `vec4`, in exact arithmetic. -/
def Vec4.add (a b : Vec4 ℚ) : Vec4 ℚ := ⟨a.x + b.x, a.y + b.y, a.z + b.z, a.w + b.w⟩

/-- Product of a `vec4` and a number, in exact arithmetic. -/
def Vec4.scale (a : Vec4 ℚ) (s : ℚ) : Vec4 ℚ := ⟨a.x * s, a.y * s, a.z * s, a.w * s⟩

/-- Product of a `mat4` and a `vec4`, in exact arithmetic. -/
def Mat4.mulVec (m : Mat4 ℚ) (v : Vec4 ℚ) : Vec4 ℚ :=
  ((m.c0.scale v.x).add (m.c1.scale v.y)).add ((m.c2.scale v.z).add (m.c3.scale v.w))

/-- Product of two `mat4`, in exact arithmetic. -/
def Mat4.mul (m n : Mat4 ℚ) : Mat4 ℚ :=
  ⟨m.mulVec n.c0, m.mulVec n.c1, m.mulVec n.c2, m.mulVec n.c3⟩

/-- The identity matrix. -/
def Mat4.identity : Mat4 ℚ := ⟨⟨1, 0, 0, 0⟩, ⟨0, 1, 0, 0⟩, ⟨0, 0, 1, 0⟩, ⟨0, 0, 0, 1⟩⟩

/-- The GPU of exact arithmetic, with a given texture lookup: the operations
are those of the rationals, `int(x)` truncates towards zero and `mix(x, y, a)`
is `x * (1 - a) + y * a`. -/
def exactGpu (texture2D : Texture → Vec2 ℚ → Vec4 ℚ) : Gpu ℚ where
  lit := fun q => q
  add := fun x y => x + y
  mul := fun x y => x * y
  div := fun x y => x / y
  toInt := fun x => if 0 ≤ x then ⌊x⌋ else ⌈x⌉
  mulInt := fun i j => i * j
  mulMat := Mat4.mul
  mulMatVec := Mat4.mulVec
  mix := fun x y a => x * (1 - a) + y * a
  texture2D := texture2D

/-- A texture lookup that returns the same pixel everywhere. -/
def constantSampler (pixel : Vec4 ℚ) : Texture → Vec2 ℚ → Vec4 ℚ := fun _ _ => pixel

/-- A black, opaque pixel. -/
def blackPixel : Vec4 ℚ := ⟨0, 0, 0, 1⟩

/-- A white, opaque pixel. -/
def whitePixel : Vec4 ℚ := ⟨1, 1, 1, 1⟩

/-- The shader that the source of the vertex shader is read as. -/
def vertexProgram : Shader where
  globals :=
    [ ⟨"uniform", "sampler2D", "zTexture", none⟩,
      ⟨"uniform", "float", "zScale", none⟩,
      ⟨"uniform", "vec3", "zLut", some 256⟩,
      ⟨"varying", "float", "vAmount", none⟩ ]
  body :=
    [ .declare "vec4" "heightData" (.call "texture2D" (.comma (.var "zTexture") (.var "uv"))),
      .assign "vAmount" (.mul (.field (.var "heightData") "r") (.number 6 0 true)),
      .declare "vec3" "newPosition"
        (.add (.var "position") (.mul (.mul (.var "normal") (.var "zScale")) (.var "vAmount"))),
      .assign "gl_Position"
        (.mul (.mul (.var "projectionMatrix") (.var "modelViewMatrix"))
          (.call "vec4" (.comma (.var "newPosition") (.number 5 1 true)))) ]

/-- The shader that the source of the fragment shader is read as, when it
interpolates the integers `r`, `g`, `b`. -/
def fragmentProgram (r g b : Nat) : Shader where
  globals :=
    [ ⟨"uniform", "vec3", "zLut", some 256⟩,
      ⟨"varying", "float", "vAmount", none⟩ ]
  body :=
    [ .declare "int" "index" (.mul (.call "int" (.var "vAmount")) (.number 255 0 false)),
      .declare "float" "brightness" (.number 9 0 true),
      .declare "vec3" "vColor"
        (.call "vec3"
          (.comma (.div (.var "vAmount") (.var "brightness"))
            (.comma (.div (.var "vAmount") (.var "brightness"))
              (.div (.var "vAmount") (.var "brightness"))))),
      .declare "vec3" "col2"
        (.call "vec3"
          (.comma (.div (.number (10 * r + 0) 1 true) (.number 2550 1 true))
            (.comma (.div (.number (10 * g + 0) 1 true) (.number 2550 1 true))
              (.div (.number (10 * b + 0) 1 true) (.number 2550 1 true))))),
      .assign "gl_FragColor"
        (.call "vec4"
          (.comma (.call "mix" (.comma (.var "vColor") (.comma (.var "col2") (.number 5 1 true))))
            (.number 10 1 true))) ]

/-- The tokens of the source of the fragment shader up to the first
interpolation. -/
def fragmentHeadTokens : List Token :=
  [ .ident "uniform", .ident "vec3", .ident "zLut", .sym '[', .number 256 0 false, .sym ']',
    .sym ';', .ident "varying", .ident "float", .ident "vAmount", .sym ';', .ident "void",
    .ident "main", .sym '(', .sym ')', .sym '{', .ident "int", .ident "index", .sym '=',
    .ident "int", .sym '(', .ident "vAmount", .sym ')', .sym '*', .number 255 0 false, .sym ';',
    .ident "float", .ident "brightness", .sym '=', .number 9 0 true, .sym ';', .ident "vec3",
    .ident "vColor", .sym '=', .ident "vec3", .sym '(', .ident "vAmount", .sym '/',
    .ident "brightness", .sym ',', .ident "vAmount", .sym '/', .ident "brightness", .sym ',',
    .ident "vAmount", .sym '/', .ident "brightness", .sym ')', .sym ';', .ident "vec3",
    .ident "col2", .sym '=', .ident "vec3", .sym '(', .sym '(' ]

/-- The tokens between two interpolations, after the number that the first one
starts. -/
def fragmentSepTokens : List Token :=
  [ .sym '/', .number 2550 1 true, .sym ')', .sym ',', .sym '(' ]

/-- The tokens after the number that the last interpolation starts. -/
def fragmentTailTokens : List Token :=
  [ .sym '/', .number 2550 1 true, .sym ')', .sym ')', .sym ';', .ident "gl_FragColor", .sym '=',
    .ident "vec4", .sym '(', .ident "mix", .sym '(', .ident "vColor", .sym ',', .ident "col2",
    .sym ',', .number 5 1 true, .sym ')', .sym ',', .number 10 1 true, .sym ')', .sym ';',
    .sym '}' ]

/-- The tokens of the source of the fragment shader that interpolates the
integers `r`, `g`, `b`: each is followed by `.0` and is read as the number
`(10 * r + 0) / 10`. -/
def fragmentTokens (r g b : Nat) : List Token :=
  fragmentHeadTokens ++ .number (10 * r + 0) 1 true :: fragmentSepTokens ++
    .number (10 * g + 0) 1 true :: fragmentSepTokens ++
    .number (10 * b + 0) 1 true :: fragmentTailTokens

/-! ## Inputs of the examples -/

/-- A generator for the examples: the data URI is made of the seed alone. -/
def seedUri : MazeGen := fun p => "data:" ++ p.seed

/-! ## Specification side: the material on the sphere along a run -/

/-- The material of `mazeSphere`, when the sphere exists. -/
def sphereMaterial (w : World) : Option ShaderMaterial :=
  match w.mazeSphere with
  | none => none
  | some ref => (w.meshes[ref]?).map (fun m => m.material)

/-- The material that a load sets: the event is a load that completes
successfully, of a request with a callback, `createMat` builds a material from
its texture and the parameters of that moment, and the sphere exists or the
callback is the one that creates it. -/
def loadMaterial (w : World) : Event → Option ShaderMaterial
  | .settle i .load =>
    match w.pending[i]? with
    | some ⟨uri, some cb⟩ =>
      match createMat w.paramList ⟨⟨uri⟩⟩ with
      | .ok mat =>
        if cb = .addSphere ∨ (sphereMaterial w).isSome = true then some mat else none
      | .error _ => none
    | _ => none
  | _ => none

/-- The material of the last load of a sequence of events that sets one, and
`last` when no load of the sequence does. -/
def lastLoadMaterial (mazeGen : MazeGen) (w : World) (last : Option ShaderMaterial) :
    List Event → Option ShaderMaterial
  | [] => last
  | e :: es =>
    lastLoadMaterial mazeGen (step mazeGen w e)
      (match loadMaterial w e with
       | some m => some m
       | none => last) es

/-- The global `mazeSphere` refers to a mesh that exists. -/
def SphereValid (w : World) : Prop :=
  ∀ ref, w.mazeSphere = some ref → ref < w.meshes.length
/-! ## Lemmas on the pattern of `hexToRgb` and on `parseInt` -/

theorem hexClass_eq_isHexDigit (c : Char) : hexClass c = isHexDigit c := by
  unfold hexClass isHexDigit canonicalize
  simp only []
  split_ifs with h
  · rw [Bool.eq_iff_iff]; simp; omega
  · rw [Bool.eq_iff_iff]; simp; omega

theorem sharpChar_iff (c : Char) : sharpChar c = true ↔ c = '#' := by
  unfold sharpChar
  constructor
  · intro h
    apply Char.ext
    apply UInt32.ext
    have : c.toNat = 35 := by simpa using h
    simpa [Char.toNat] using this
  · rintro rfl; decide

theorem run_index_succ (i : Nat) (l : List Char) (cap : Nat → Option (List Char))
    (k : MatchState → Option MatchState) :
    hexPattern.run ⟨i + 1, l, cap⟩ k = none := by
  simp [hexPattern, Re.run]

theorem execAt_succ (i : Nat) (l : List Char) : hexPattern.execAt (i + 1) l = none := by
  induction l generalizing i with
  | nil => simp [Re.execAt, run_index_succ]
  | cons c t ih => simp [Re.execAt, run_index_succ, ih]

theorem execAt_zero (l : List Char) :
    hexPattern.execAt 0 l = hexPattern.run ⟨0, l, fun _ => none⟩ some := by
  cases l with
  | nil => simp [Re.execAt]
  | cons c t =>
    simp only [Re.execAt, execAt_succ]
    cases hexPattern.run ⟨0, c :: t, fun _ => none⟩ some <;> rfl


theorem run_hexTail_six (i : Nat) (c1 c2 c3 c4 c5 c6 : Char) (cap : Nat → Option (List Char))
    (h : isSixHex [c1, c2, c3, c4, c5, c6] = true) :
    ∃ e, hexTail.run ⟨i, [c1, c2, c3, c4, c5, c6], cap⟩ some = some e ∧
      e.group 1 = [c1, c2] ∧ e.group 2 = [c3, c4] ∧ e.group 3 = [c5, c6] := by
  simp [isSixHex, ← hexClass_eq_isHexDigit] at h
  obtain ⟨h1, h2, h3, h4, h5, h6⟩ := h
  have hi : i + 1 + 1 - i = 2 := by omega
  simp [hexTail, hexPair, Re.run, h1, h2, h3, h4, h5, h6, MatchState.group, hi]

theorem run_hexTail_some (i : Nat) (l : List Char) (cap : Nat → Option (List Char))
    (e : MatchState) (h : hexTail.run ⟨i, l, cap⟩ some = some e) : isSixHex l = true := by
  rcases l with _ | ⟨c1, _ | ⟨c2, _ | ⟨c3, _ | ⟨c4, _ | ⟨c5, _ | ⟨c6, _ | ⟨c7, l⟩⟩⟩⟩⟩⟩⟩ <;>
    simp [hexTail, hexPair, Re.run] at h
  simp [isSixHex, ← hexClass_eq_isHexDigit]
  tauto


theorem isSixHex_head_ne_sharp (c : Char) (t : List Char) (h : isSixHex (c :: t) = true) :
    sharpChar c = false := by
  have hc : isHexDigit c = true := by
    simp [isSixHex] at h
    exact h.2.1
  unfold isHexDigit at hc
  unfold sharpChar
  simp at hc ⊢
  omega

theorem hexPattern_eq : hexPattern = .seq .bol (.seq (.opt (.cls sharpChar)) hexTail) := rfl

theorem run_lead_nil (T : Re) (cap : Nat → Option (List Char))
    (k : MatchState → Option MatchState) :
    (Re.seq .bol (.seq (.opt (.cls sharpChar)) T)).run ⟨0, [], cap⟩ k = T.run ⟨0, [], cap⟩ k := by
  simp [Re.run]

theorem run_lead_sharp (T : Re) (c : Char) (t : List Char) (cap : Nat → Option (List Char))
    (k : MatchState → Option MatchState) (hc : sharpChar c = true) :
    (Re.seq .bol (.seq (.opt (.cls sharpChar)) T)).run ⟨0, c :: t, cap⟩ k =
      match T.run ⟨1, t, cap⟩ k with
      | some e => some e
      | none => T.run ⟨0, c :: t, cap⟩ k := by
  simp [Re.run, hc]

theorem run_lead_other (T : Re) (c : Char) (t : List Char) (cap : Nat → Option (List Char))
    (k : MatchState → Option MatchState) (hc : sharpChar c = false) :
    (Re.seq .bol (.seq (.opt (.cls sharpChar)) T)).run ⟨0, c :: t, cap⟩ k =
      T.run ⟨0, c :: t, cap⟩ k := by
  simp [Re.run, hc]

/-- What `exec` returns for the pattern of `hexToRgb`, on an input of six
hexadecimal digits. -/
theorem exec_six (c1 c2 c3 c4 c5 c6 : Char) (h : isSixHex [c1, c2, c3, c4, c5, c6] = true) :
    ∃ e, hexPattern.execAt 0 [c1, c2, c3, c4, c5, c6] = some e ∧
      e.group 1 = [c1, c2] ∧ e.group 2 = [c3, c4] ∧ e.group 3 = [c5, c6] := by
  obtain ⟨e, he, hg⟩ := run_hexTail_six 0 c1 c2 c3 c4 c5 c6 (fun _ => none) h
  refine ⟨e, ?_, hg⟩
  have hs := isSixHex_head_ne_sharp _ _ h
  rw [execAt_zero, hexPattern_eq, run_lead_other _ _ _ _ _ hs]
  exact he

/-- What `exec` returns on `#` followed by six hexadecimal digits. -/
theorem exec_sharp_six (c1 c2 c3 c4 c5 c6 : Char)
    (h : isSixHex [c1, c2, c3, c4, c5, c6] = true) :
    ∃ e, hexPattern.execAt 0 ('#' :: [c1, c2, c3, c4, c5, c6]) = some e ∧
      e.group 1 = [c1, c2] ∧ e.group 2 = [c3, c4] ∧ e.group 3 = [c5, c6] := by
  obtain ⟨e, he, hg⟩ := run_hexTail_six 1 c1 c2 c3 c4 c5 c6 (fun _ => none) h
  refine ⟨e, ?_, hg⟩
  have hs : sharpChar '#' = true := by decide
  rw [execAt_zero, hexPattern_eq, run_lead_sharp _ _ _ _ _ hs, he]

/-- A match of the pattern of `hexToRgb` exists only on an optional `#` followed
by six hexadecimal digits. -/
theorem exec_some_shape (l : List Char) (e : MatchState)
    (h : hexPattern.execAt 0 l = some e) :
    isSixHex l = true ∨ ∃ t, l = '#' :: t ∧ isSixHex t = true := by
  rw [execAt_zero, hexPattern_eq] at h
  cases l with
  | nil =>
    rw [run_lead_nil] at h
    exact Or.inl (run_hexTail_some _ _ _ _ h)
  | cons c t =>
    by_cases hc : sharpChar c = true
    · rw [run_lead_sharp _ _ _ _ _ hc] at h
      rw [sharpChar_iff] at hc
      subst hc
      cases h1 : hexTail.run ⟨1, t, fun _ => none⟩ some with
      | some e1 => exact Or.inr ⟨t, rfl, run_hexTail_some _ _ _ _ h1⟩
      | none =>
        rw [h1] at h
        exact Or.inl (run_hexTail_some _ _ _ _ h)
    · rw [run_lead_other _ _ _ _ _ (by simpa using hc)] at h
      exact Or.inl (run_hexTail_some _ _ _ _ h)


theorem mem_hexDigits (c : Char) (h : isHexDigit c = true) : c ∈ hexDigits := by
  have hc : c = Char.ofNat c.toNat := (Char.ofNat_toNat c).symm
  unfold isHexDigit at h
  simp only [Bool.or_eq_true, Bool.and_eq_true, decide_eq_true_eq] at h
  generalize c.toNat = n at h hc
  subst hc
  rcases h with (⟨h1, h2⟩ | ⟨h1, h2⟩) | ⟨h1, h2⟩ <;> interval_cases n <;> decide

set_option maxRecDepth 100000 in
theorem parseInt_hexDigits :
    ∀ c1 ∈ hexDigits, ∀ c2 ∈ hexDigits,
      parseInt [c1, c2] 16 = .num (16 * hexDigitValue c1 + hexDigitValue c2 : Nat) := by
  decide


/-! ## Lemmas on `hexToRgb` -/

theorem isSixHex_shape (l : List Char) (h : isSixHex l = true) :
    ∃ c1 c2 c3 c4 c5 c6, l = [c1, c2, c3, c4, c5, c6] := by
  rcases l with _ | ⟨c1, _ | ⟨c2, _ | ⟨c3, _ | ⟨c4, _ | ⟨c5, _ | ⟨c6, _ | ⟨c7, l⟩⟩⟩⟩⟩⟩⟩ <;>
    simp [isSixHex] at h
  exact ⟨c1, c2, c3, c4, c5, c6, rfl⟩

theorem isSixHex_digits (c1 c2 c3 c4 c5 c6 : Char)
    (h : isSixHex [c1, c2, c3, c4, c5, c6] = true) :
    c1 ∈ hexDigits ∧ c2 ∈ hexDigits ∧ c3 ∈ hexDigits ∧ c4 ∈ hexDigits ∧ c5 ∈ hexDigits ∧
      c6 ∈ hexDigits := by
  simp [isSixHex] at h
  obtain ⟨h1, h2, h3, h4, h5, h6⟩ := h
  exact ⟨mem_hexDigits _ h1, mem_hexDigits _ h2, mem_hexDigits _ h3, mem_hexDigits _ h4,
    mem_hexDigits _ h5, mem_hexDigits _ h6⟩

theorem hexToRgb_of_exec (hex : String) (c1 c2 c3 c4 c5 c6 : Char)
    (h : isSixHex [c1, c2, c3, c4, c5, c6] = true)
    (he : ∃ e, hexPattern.execAt 0 hex.toList = some e ∧
      e.group 1 = [c1, c2] ∧ e.group 2 = [c3, c4] ∧ e.group 3 = [c5, c6]) :
    hexToRgb hex = some ⟨byteOf c1 c2, byteOf c3 c4, byteOf c5 c6⟩ := by
  obtain ⟨e, he, g1, g2, g3⟩ := he
  obtain ⟨h1, h2, h3, h4, h5, h6⟩ := isSixHex_digits _ _ _ _ _ _ h
  simp only [hexToRgb, Re.exec, he, g1, g2, g3, byteOf]
  rw [parseInt_hexDigits c1 h1 c2 h2, parseInt_hexDigits c3 h3 c4 h4,
    parseInt_hexDigits c5 h5 c6 h6]

/-- The result of `hexToRgb` on six hexadecimal digits. -/
theorem hexToRgb_six (hex : String) (c1 c2 c3 c4 c5 c6 : Char)
    (hl : hex.toList = [c1, c2, c3, c4, c5, c6])
    (h : isSixHex [c1, c2, c3, c4, c5, c6] = true) :
    hexToRgb hex = some ⟨byteOf c1 c2, byteOf c3 c4, byteOf c5 c6⟩ :=
  hexToRgb_of_exec _ _ _ _ _ _ _ h (hl ▸ exec_six _ _ _ _ _ _ h)

/-- The result of `hexToRgb` on `#` and six hexadecimal digits. -/
theorem hexToRgb_sharp_six (hex : String) (c1 c2 c3 c4 c5 c6 : Char)
    (hl : hex.toList = '#' :: [c1, c2, c3, c4, c5, c6])
    (h : isSixHex [c1, c2, c3, c4, c5, c6] = true) :
    hexToRgb hex = some ⟨byteOf c1 c2, byteOf c3 c4, byteOf c5 c6⟩ :=
  hexToRgb_of_exec _ _ _ _ _ _ _ h (hl ▸ exec_sharp_six _ _ _ _ _ _ h)

/-- Every result of `hexToRgb` is the value of six hexadecimal digits that end
the input. -/
theorem hexToRgb_some_shape (hex : String) (res : Rgb) (h : hexToRgb hex = some res) :
    ∃ c1 c2 c3 c4 c5 c6, isSixHex [c1, c2, c3, c4, c5, c6] = true ∧
      (hex.toList = [c1, c2, c3, c4, c5, c6] ∨ hex.toList = '#' :: [c1, c2, c3, c4, c5, c6]) ∧
      res = ⟨byteOf c1 c2, byteOf c3 c4, byteOf c5 c6⟩ := by
  cases he : hexPattern.execAt 0 hex.toList with
  | none =>
    unfold hexToRgb Re.exec at h
    rw [he] at h
    exact absurd h (by simp)
  | some e =>
    rcases exec_some_shape _ _ he with h6 | ⟨t, ht, h6⟩
    · obtain ⟨c1, c2, c3, c4, c5, c6, hl⟩ := isSixHex_shape _ h6
      rw [hl] at h6
      refine ⟨c1, c2, c3, c4, c5, c6, h6, Or.inl hl, ?_⟩
      have h2 := hexToRgb_six hex _ _ _ _ _ _ hl h6
      rw [h] at h2
      exact Option.some.inj h2
    · obtain ⟨c1, c2, c3, c4, c5, c6, hl⟩ := isSixHex_shape _ h6
      rw [hl] at h6 ht
      refine ⟨c1, c2, c3, c4, c5, c6, h6, Or.inr ht, ?_⟩
      have h2 := hexToRgb_sharp_six hex _ _ _ _ _ _ ht h6
      rw [h] at h2
      exact Option.some.inj h2

theorem isHexColour_iff (hex : String) :
    isHexColour hex = true ↔
      isSixHex hex.toList = true ∨ ∃ t, hex.toList = '#' :: t ∧ isSixHex t = true := by
  unfold isHexColour
  cases hl : hex.toList with
  | nil => simp [isSixHex]
  | cons c t =>
    simp only [Bool.or_eq_true, Bool.and_eq_true, beq_iff_eq, List.cons.injEq]
    constructor
    · rintro (h | ⟨hc, h⟩)
      · exact Or.inl h
      · exact Or.inr ⟨t, ⟨hc, rfl⟩, h⟩
    · rintro (h | ⟨t1, ⟨hc, rfl⟩, h⟩)
      · exact Or.inl h
      · exact Or.inr ⟨hc, h⟩

theorem hexToRgb_isSome_iff (hex : String) :
    (∃ res, hexToRgb hex = some res) ↔ isHexColour hex = true := by
  rw [isHexColour_iff]
  constructor
  · rintro ⟨res, h⟩
    obtain ⟨c1, c2, c3, c4, c5, c6, h6, hl | hl, _⟩ := hexToRgb_some_shape hex res h
    · left; rw [hl]; exact h6
    · right; exact ⟨_, hl, h6⟩
  · rintro (h6 | ⟨t, ht, h6⟩)
    · obtain ⟨c1, c2, c3, c4, c5, c6, hl⟩ := isSixHex_shape _ h6
      rw [hl] at h6
      exact ⟨_, hexToRgb_six hex _ _ _ _ _ _ hl h6⟩
    · obtain ⟨c1, c2, c3, c4, c5, c6, hl⟩ := isSixHex_shape _ h6
      rw [hl] at h6 ht
      exact ⟨_, hexToRgb_sharp_six hex _ _ _ _ _ _ ht h6⟩

theorem hexToRgb_eq_none_iff (hex : String) :
    hexToRgb hex = none ↔ isHexColour hex = false := by
  have h := hexToRgb_isSome_iff hex
  cases hr : hexToRgb hex with
  | none =>
    rw [hr] at h
    simp only [true_iff]
    cases hc : isHexColour hex with
    | false => rfl
    | true => exact absurd (h.mpr hc) (by simp)
  | some res =>
    rw [hr] at h
    have : isHexColour hex = true := h.mp ⟨res, rfl⟩
    simp [this]

theorem hexDigitValue_le : ∀ c ∈ hexDigits, hexDigitValue c ≤ 15 := by
  decide

/-- The value of two hexadecimal digits is a natural number up to 255. -/
theorem byteOf_bound (c1 c2 : Char) (h1 : c1 ∈ hexDigits) (h2 : c2 ∈ hexDigits) :
    ∃ v : Nat, v ≤ 255 ∧ byteOf c1 c2 = .num v := by
  refine ⟨16 * hexDigitValue c1 + hexDigitValue c2, ?_, rfl⟩
  have := hexDigitValue_le c1 h1
  have := hexDigitValue_le c2 h2
  omega

/-- Every component of a result of `hexToRgb` is an integer in `0..255`. -/
theorem hexToRgb_bounds (hex : String) (res : Rgb) (h : hexToRgb hex = some res) :
    ∃ r g b : Nat, r ≤ 255 ∧ g ≤ 255 ∧ b ≤ 255 ∧ res = ⟨.num r, .num g, .num b⟩ := by
  obtain ⟨c1, c2, c3, c4, c5, c6, h6, _, hres⟩ := hexToRgb_some_shape hex res h
  obtain ⟨h1, h2, h3, h4, h5, h6⟩ := isSixHex_digits _ _ _ _ _ _ h6
  obtain ⟨r, hr, er⟩ := byteOf_bound c1 c2 h1 h2
  obtain ⟨g, hg, eg⟩ := byteOf_bound c3 c4 h3 h4
  obtain ⟨b, hb, eb⟩ := byteOf_bound c5 c6 h5 h6
  exact ⟨r, g, b, hr, hg, hb, by rw [hres, er, eg, eb]⟩

theorem hexDigitChar_spec :
    ∀ u : Bool, ∀ d < 16, isHexDigit (hexDigitChar u d) = true ∧
      hexDigitValue (hexDigitChar u d) = d := by
  decide

theorem byteOf_hexByte (u1 u2 : Bool) (v : Nat) (hv : v < 256) :
    byteOf (hexDigitChar u1 (v / 16)) (hexDigitChar u2 (v % 16)) = .num v := by
  have h1 := (hexDigitChar_spec u1 (v / 16) (by omega)).2
  have h2 := (hexDigitChar_spec u2 (v % 16) (by omega)).2
  simp only [byteOf, h1, h2]
  congr 1
  have : 16 * (v / 16) + v % 16 = v := Nat.div_add_mod v 16
  exact_mod_cast this


/-! ## Lemmas on `createMat` -/

/-- The material that `createMat` builds when the colour is not null. -/
theorem createMat_of_some (paramList : Params) (data : MatData) (color : Rgb)
    (h : hexToRgb paramList.objColor = some color) :
    createMat paramList data = .ok
      { uniforms := { zTexture := data.texture, zScale := 1,
                      zLut := List.replicate 256 ⟨1 / 2, 2 / 5, 3 / 10⟩ }
        vertexShader := vertexShaderSource
        fragmentShader := fragmentShaderSource color
        side := .DoubleSide
        flatshading := true } := by
  simp only [createMat, h]

/-- The exception that `createMat` throws when the colour is null. -/
theorem createMat_of_none (paramList : Params) (data : MatData)
    (h : hexToRgb paramList.objColor = none) :
    createMat paramList data =
      .error (.typeError "Cannot read properties of null (reading r)") := by
  simp only [createMat, h]

/-- A material that `createMat` returns carries the texture given and the
scale 1. -/
theorem createMat_uniforms (paramList : Params) (data : MatData) (m : ShaderMaterial)
    (h : createMat paramList data = .ok m) :
    m.uniforms.zTexture = data.texture ∧ m.uniforms.zScale = 1 := by
  cases hc : hexToRgb paramList.objColor with
  | none =>
    rw [createMat_of_none _ _ hc] at h
    exact absurd h (by simp)
  | some color =>
    rw [createMat_of_some _ _ _ hc] at h
    injection h with h
    subst h
    exact ⟨rfl, rfl⟩


/-- The source of the vertex shader of a material that `createMat` returns. -/
theorem createMat_vertexShader (paramList : Params) (data : MatData) (m : ShaderMaterial)
    (h : createMat paramList data = .ok m) : m.vertexShader = vertexShaderSource := by
  cases hc : hexToRgb paramList.objColor with
  | none =>
    rw [createMat_of_none _ _ hc] at h
    exact absurd h (by simp)
  | some color =>
    rw [createMat_of_some _ _ _ hc] at h
    injection h with h
    subst h
    rfl

/-! ## Lemmas on the vertex shader -/

set_option maxRecDepth 100000 in
/-- The source of the vertex shader is read as `vertexProgram`. -/
theorem parse_vertexShaderSource : parseShader vertexShaderSource = some vertexProgram := by
  decide

/-- What the vertex shader computes, on every GPU: the expression of its source,
in the operations of the GPU. -/
theorem runVertexShader_source {F : Type} (G : Gpu F) (u : Uniforms)
    (projectionMatrix modelViewMatrix : Mat4 F) (position normal : Vec3 F) (uv : Vec2 F) :
    runVertexShader G vertexShaderSource u projectionMatrix modelViewMatrix position normal uv =
      some
        { vAmount := G.mul (G.texture2D u.zTexture uv).x (G.lit 6)
          gl_Position := G.mulMatVec (G.mulMat projectionMatrix modelViewMatrix)
            ⟨G.add position.x (G.mul (G.mul normal.x (G.lit u.zScale))
                (G.mul (G.texture2D u.zTexture uv).x (G.lit 6))),
             G.add position.y (G.mul (G.mul normal.y (G.lit u.zScale))
                (G.mul (G.texture2D u.zTexture uv).x (G.lit 6))),
             G.add position.z (G.mul (G.mul normal.z (G.lit u.zScale))
                (G.mul (G.texture2D u.zTexture uv).x (G.lit 6))),
             G.lit (1 / 2)⟩ } := by
  unfold runVertexShader
  rw [parse_vertexShaderSource]
  simp [vertexProgram, exec, eval, List.lookup, Value.call, Value.mul, Value.add, Value.hasType,
    Vec4.component]
  norm_num

/-! ## Lemmas on the events -/

/-- What `paramHandler` does to the state: one more pending request. -/
theorem paramHandler_eq (mazeGen : MazeGen) (w : World) :
    paramHandler mazeGen w =
      { w with pending := w.pending ++ [⟨initMaze mazeGen w.paramList, some .setMaterial⟩] } :=
  rfl

/-- A failed load removes the request and changes nothing else. -/
theorem settle_error (i : Nat) (w : World) :
    settle i .error w = { w with pending := w.pending.eraseIdx i } := by
  unfold settle
  cases h : w.pending[i]? with
  | some rq => rfl
  | none =>
    have hl : w.pending.length ≤ i := by
      rcases Nat.lt_or_ge i w.pending.length with hlt | hge
      · rw [List.getElem?_eq_getElem hlt] at h
        exact absurd h (by simp)
      · exact hge
    simp only []
    rw [List.eraseIdx_of_length_le hl]

/-- A successful load calls the listener of the request, in the state without
the request. -/
theorem settle_load (i : Nat) (w : World) (rq : Request) (h : w.pending[i]? = some rq) :
    settle i .load w =
      match onLoad rq.cb ⟨rq.uri⟩ { w with pending := w.pending.eraseIdx i } with
      | .ok w2 => w2
      | .error e =>
        { w with pending := w.pending.eraseIdx i, uncaught := w.uncaught ++ [e] } := by
  unfold settle
  simp only [h]

/-- A successful load of a request of `paramHandler`, when the sphere exists and
the colour is valid. -/
theorem settle_load_setMaterial (i ref : Nat) (w : World) (uri : String) (mesh : Mesh)
    (mat : ShaderMaterial) (hreq : w.pending[i]? = some ⟨uri, some .setMaterial⟩)
    (hs : w.mazeSphere = some ref) (hm : w.meshes[ref]? = some mesh)
    (hmat : createMat w.paramList ⟨⟨uri⟩⟩ = .ok mat) :
    settle i .load w =
      { w with pending := w.pending.eraseIdx i
               meshes := w.meshes.set ref { mesh with material := mat } } := by
  rw [settle_load i w _ hreq]
  simp only [onLoad, hmat, Callback.call, hs, hm]


theorem run_append_one (mazeGen : MazeGen) (w : World) (events : List Event) (e : Event) :
    run mazeGen w (events ++ [e]) = step mazeGen (run mazeGen w events) e := by
  simp [run, List.foldl_append]

/-- A change of a controller removes no pending request and alters none. -/
theorem guiSetValue_pending (mazeGen : MazeGen) (i : Nat) (value : JsValue) (w : World) :
    ∃ l, (guiSetValue mazeGen i value w).pending = w.pending ++ l := by
  unfold guiSetValue
  cases h1 : gui[i]? with
  | none => exact ⟨[], by simp⟩
  | some c =>
    cases h2 : w.paramList.set c.property value with
    | none => exact ⟨[], by simp [h2]⟩
    | some p =>
      cases h3 : c.onChange with
      | none => exact ⟨[], by simp [h2, h3]⟩
      | some l =>
        cases l with
        | paramHandler =>
          exact ⟨[⟨initMaze mazeGen p, some .setMaterial⟩], by
            simp only [h2, h3, Listener.run, paramHandler_eq]⟩
        | onWindowResize => exact ⟨[], by simp [h2, h3, Listener.run]⟩

theorem set_mem_paramsFields (p q : Params) (f : String) (v : JsValue)
    (h : p.set f v = some q) : f ∈ paramsFields := by
  unfold Params.set at h
  unfold paramsFields
  cases v with
  | number x =>
    simp only [] at h
    split_ifs at h <;> simp_all
  | string x =>
    simp only [] at h
    split_ifs at h <;> simp_all


/-- Neither callback touches the pending requests. -/
theorem call_pending (cb : Callback) (mat : ShaderMaterial) (w w2 : World)
    (h : cb.call mat w = .ok w2) : w2.pending = w.pending := by
  cases cb with
  | setMaterial =>
    unfold Callback.call at h
    cases hs : w.mazeSphere with
    | none => simp [hs] at h
    | some ref =>
      cases hm : w.meshes[ref]? with
      | none => simp [hs, hm] at h
      | some m =>
        simp only [hs, hm] at h
        injection h with h
        rw [← h]
  | addSphere =>
    unfold Callback.call at h
    injection h with h
    rw [← h]


/-! ## The material on the sphere along a run -/

theorem guiSetValue_frame (mazeGen : MazeGen) (i : Nat) (value : JsValue) (w : World) :
    (guiSetValue mazeGen i value w).meshes = w.meshes ∧
      (guiSetValue mazeGen i value w).mazeSphere = w.mazeSphere := by
  unfold guiSetValue
  cases h1 : gui[i]? with
  | none => exact ⟨rfl, rfl⟩
  | some c =>
    cases h2 : w.paramList.set c.property value with
    | none => simp [h2]
    | some p =>
      cases h3 : c.onChange with
      | none => simp [h2, h3]
      | some l =>
        cases l with
        | paramHandler => simp [h2, h3, Listener.run, paramHandler_eq]
        | onWindowResize => simp [h2, h3, Listener.run]

theorem sphereMaterial_congr (w v : World) (hm : v.meshes = w.meshes)
    (hs : v.mazeSphere = w.mazeSphere) : sphereMaterial v = sphereMaterial w := by
  unfold sphereMaterial
  rw [hm, hs]

theorem sphereValid_congr (w v : World) (hm : v.meshes = w.meshes)
    (hs : v.mazeSphere = w.mazeSphere) (hw : SphereValid w) : SphereValid v := by
  intro ref h
  rw [hm]
  exact hw ref (hs ▸ h)

/-- One event: the material on the sphere afterwards is the material that the
event sets as a load, and the material before when it sets none. -/
theorem step_sphereMaterial (mazeGen : MazeGen) (w : World) (e : Event) (hw : SphereValid w) :
    SphereValid (step mazeGen w e) ∧
      sphereMaterial (step mazeGen w e) =
        (match loadMaterial w e with
         | some m => some m
         | none => sphereMaterial w) := by
  cases e with
  | change i value =>
    obtain ⟨hm, hs⟩ := guiSetValue_frame mazeGen i value w
    exact ⟨sphereValid_congr _ _ hm hs hw, by
      simp only [step, loadMaterial]
      exact sphereMaterial_congr _ _ hm hs⟩
  | settle i o =>
    cases o with
    | error =>
      simp only [step, settle_error, loadMaterial]
      exact ⟨sphereValid_congr w _ rfl rfl hw, sphereMaterial_congr w _ rfl rfl⟩
    | load =>
      cases hp : w.pending[i]? with
      | none =>
        have hset : settle i .load w = w := by
          unfold settle
          simp only [hp]
        simp only [step, hset, loadMaterial, hp]
        exact ⟨hw, trivial⟩
      | some rq =>
        obtain ⟨uri, cb⟩ := rq
        rw [step, settle_load i w _ hp]
        cases hc : createMat w.paramList ⟨⟨uri⟩⟩ with
        | error err =>
          have hl : loadMaterial w (.settle i .load) = none := by
            cases cb <;> simp only [loadMaterial, hp, hc]
          simp only [onLoad, hc, hl]
          exact ⟨sphereValid_congr w _ rfl rfl hw, sphereMaterial_congr w _ rfl rfl⟩
        | ok mat =>
          cases cb with
          | none =>
            simp only [onLoad, hc, loadMaterial, hp]
            exact ⟨sphereValid_congr w _ rfl rfl hw, sphereMaterial_congr w _ rfl rfl⟩
          | some cb =>
            cases cb with
            | addSphere =>
              simp only [onLoad, hc, Callback.call, loadMaterial, hp, true_or, if_true]
              constructor
              · intro ref h
                simp only [Option.some.injEq] at h
                subst h
                simp
              · simp [sphereMaterial]
            | setMaterial =>
              cases hs : w.mazeSphere with
              | none =>
                have hsm : sphereMaterial w = none := by simp [sphereMaterial, hs]
                simp only [onLoad, hc, Callback.call, hs, loadMaterial, hp, hsm]
                simp only [Option.isSome_none, or_self, if_false, reduceCtorEq, Bool.false_eq_true]
                exact ⟨sphereValid_congr w _ rfl hs.symm hw, by simp [sphereMaterial]⟩
              | some ref =>
                have hlt := hw ref hs
                have hget : w.meshes[ref]? = some w.meshes[ref] := List.getElem?_eq_getElem hlt
                have hsm : (sphereMaterial w).isSome = true := by
                  simp [sphereMaterial, hs, hget]
                simp only [onLoad, hc, Callback.call, hs, hget, loadMaterial, hp, hsm, or_true,
                  if_true]
                constructor
                · intro r h
                  simp only [Option.some.injEq] at h
                  subst h
                  simpa using hlt
                · simp [sphereMaterial, hlt]

/-- Along every run, the material on the sphere is that of the last load that
set one. -/
theorem run_sphereMaterial (mazeGen : MazeGen) (events : List Event) (w : World)
    (hw : SphereValid w) :
    sphereMaterial (run mazeGen w events) =
      lastLoadMaterial mazeGen w (sphereMaterial w) events := by
  induction events generalizing w with
  | nil => rfl
  | cons e es ih =>
    obtain ⟨hv, hm⟩ := step_sphereMaterial mazeGen w e hw
    have hrun : run mazeGen w (e :: es) = run mazeGen (step mazeGen w e) es := rfl
    rw [hrun, ih _ hv, hm]
    rfl

theorem main_sphereValid (mazeGen : MazeGen) : SphereValid (main mazeGen) := by
  intro ref h
  exact absurd h (by simp [main, loadHeightMap, init])


/-! ## Lemmas on the lexer and on the source of the fragment shader -/

theorem toList_append (s t : String) : (s ++ t).toList = s.toList ++ t.toList := rfl

/-- The tokens read before a character are only added to. -/
theorem lexStep_out (m : LexMode) (out : List Token) (c : Char) :
    lexStep (m, out) c = ((lexStep (m, []) c).1, (lexStep (m, []) c).2 ++ out) := by
  unfold lexStep
  cases m <;> simp only [List.append_nil] <;> (try split_ifs) <;> simp

/-- The tokens read before a text are only added to. -/
theorem lexFold_out (cs : List Char) (m : LexMode) (out : List Token) :
    cs.foldl lexStep (m, out) =
      ((cs.foldl lexStep (m, [])).1, (cs.foldl lexStep (m, [])).2 ++ out) := by
  induction cs generalizing m out with
  | nil => simp
  | cons c t ih =>
    simp only [List.foldl]
    rw [lexStep_out, ih, ih (lexStep (m, []) c).1 (lexStep (m, []) c).2]
    simp

set_option maxRecDepth 100000 in
/-- The digits of a number up to 255 are read as this number. -/
theorem lex_digits : ∀ r < 256,
    (JsNumber.toJsString (.num (r : Nat))).toList.foldl lexStep (.idle, []) = (.intLit r, []) := by
  decide

set_option maxRecDepth 100000 in
theorem lex_fragmentShaderHead :
    fragmentShaderHead.toList.foldl lexStep (.idle, []) = (.idle, fragmentHeadTokens.reverse) := by
  decide

set_option maxRecDepth 100000 in
theorem lex_fragmentShaderSep :
    (fragmentShaderSep.toList.drop 3).foldl lexStep (.idle, []) =
      (.idle, fragmentSepTokens.reverse) := by
  decide

set_option maxRecDepth 100000 in
theorem lex_fragmentShaderTail :
    (fragmentShaderTail.toList.drop 3).foldl lexStep (.idle, []) =
      (.idle, fragmentTailTokens.reverse) := by
  decide

theorem fragmentShaderSep_toList :
    fragmentShaderSep.toList = '.' :: '0' :: ' ' :: fragmentShaderSep.toList.drop 3 := by
  decide

theorem fragmentShaderTail_toList :
    fragmentShaderTail.toList = '.' :: '0' :: ' ' :: fragmentShaderTail.toList.drop 3 := by
  decide

/-- An integer followed by `.0` and a blank is read as a `float`. -/
theorem lex_number_end (n : Nat) (out : List Token) (rest : List Char) :
    ('.' :: '0' :: ' ' :: rest).foldl lexStep (.intLit n, out) =
      rest.foldl lexStep (.idle, .number (10 * n + 0) 1 true :: out) := by
  rfl

/-- An interpolated number and the text up to the next one. -/
theorem lex_interpolation (r : Nat) (hr : r < 256) (out : List Token) (after : List Char) :
    ((JsNumber.toJsString (.num (r : Nat))).toList ++ ('.' :: '0' :: ' ' :: after)).foldl lexStep
        (.idle, out) =
      ((after.foldl lexStep (.idle, [])).1,
        (after.foldl lexStep (.idle, [])).2 ++ .number (10 * r + 0) 1 true :: out) := by
  rw [List.foldl_append, lexFold_out _ .idle out, lex_digits r hr, lex_number_end,
    lexFold_out after .idle]
  simp

/-- The tokens of the source of the fragment shader. -/
theorem lex_fragmentShaderSource (r g b : Nat) (hr : r < 256) (hg : g < 256) (hb : b < 256) :
    lex (fragmentShaderSource ⟨.num r, .num g, .num b⟩) = fragmentTokens r g b := by
  unfold lex fragmentShaderSource
  simp only [toList_append, List.append_assoc]
  rw [fragmentShaderSep_toList, fragmentShaderTail_toList]
  simp only [List.cons_append]
  rw [List.foldl_append, lex_fragmentShaderHead, lex_interpolation r hr,
    List.foldl_append, lex_fragmentShaderSep, lex_interpolation g hg,
    List.foldl_append, lex_fragmentShaderSep, lex_interpolation b hb,
    lex_fragmentShaderTail]
  simp [fragmentTokens, LexMode.flush]

set_option maxRecDepth 100000 in
/-- The tokens of the fragment shader are read as `fragmentProgram`. -/
theorem parse_fragmentTokens (r g b : Nat) :
    parseGlobals ((fragmentTokens r g b).length + 1) (fragmentTokens r g b) =
      some (fragmentProgram r g b) := by
  rfl

/-- The source of the fragment shader is read as `fragmentProgram`. -/
theorem parse_fragmentShaderSource (r g b : Nat) (hr : r < 256) (hg : g < 256) (hb : b < 256) :
    parseShader (fragmentShaderSource ⟨.num r, .num g, .num b⟩) = some (fragmentProgram r g b) := by
  unfold parseShader
  rw [lex_fragmentShaderSource r g b hr hg hb]
  exact parse_fragmentTokens r g b

/-- What the fragment shader computes, on every GPU: the expression of its
source, in the operations of the GPU. -/
theorem runFragmentShader_source {F : Type} (gpu : Gpu F) (u : Uniforms) (v : F) (r g b : Nat)
    (hr : r < 256) (hg : g < 256) (hb : b < 256) :
    runFragmentShader gpu (fragmentShaderSource ⟨.num r, .num g, .num b⟩) u v =
      some
        ⟨gpu.mix (gpu.div v (gpu.lit 9)) (gpu.div (gpu.lit r) (gpu.lit 255)) (gpu.lit (1 / 2)),
         gpu.mix (gpu.div v (gpu.lit 9)) (gpu.div (gpu.lit g) (gpu.lit 255)) (gpu.lit (1 / 2)),
         gpu.mix (gpu.div v (gpu.lit 9)) (gpu.div (gpu.lit b) (gpu.lit 255)) (gpu.lit (1 / 2)),
         gpu.lit 1⟩ := by
  have lit10 : ∀ n : Nat, (((10 * n + 0 : Nat) : ℚ) / 10 ^ 1) = n := by
    intro n
    push_cast
    ring
  unfold runFragmentShader
  rw [parse_fragmentShaderSource r g b hr hg hb]
  simp [fragmentProgram, exec, eval, List.lookup, Value.call, Value.mul, Value.div,
    Value.hasType, lit10]
  norm_num


/-! ## Claims on `hexToRgb` and on the colour of `createMat` -/

/-- C8: `hexToRgb` decodes what a two-digit hexadecimal rendering encodes. For
all `r`, `g`, `b` in `0..255`, on the string made of an optional `#` and the
two-digit base-16 renderings of `r`, `g`, `b` (each digit `a`-`f` in either
case) it returns the object with exactly these three values; and every
component of every non-null result is an integer in `0..255`. -/
theorem hexToRgb_decodes_rendering (sharp : Bool) (u : Fin 6 → Bool) (r g b : Nat)
    (hr : r ≤ 255) (hg : g ≤ 255) (hb : b ≤ 255) :
    hexToRgb (colourString sharp u r g b) = some ⟨.num r, .num g, .num b⟩ ∧
    ∀ (hex : String) (res : Rgb), hexToRgb hex = some res →
      ∃ x y z : Nat, x ≤ 255 ∧ y ≤ 255 ∧ z ≤ 255 ∧ res = ⟨.num x, .num y, .num z⟩ := by
  refine ⟨?_, hexToRgb_bounds⟩
  have d1 := (hexDigitChar_spec (u 0) (r / 16) (by omega)).1
  have d2 := (hexDigitChar_spec (u 1) (r % 16) (by omega)).1
  have d3 := (hexDigitChar_spec (u 2) (g / 16) (by omega)).1
  have d4 := (hexDigitChar_spec (u 3) (g % 16) (by omega)).1
  have d5 := (hexDigitChar_spec (u 4) (b / 16) (by omega)).1
  have d6 := (hexDigitChar_spec (u 5) (b % 16) (by omega)).1
  have h6 : isSixHex [hexDigitChar (u 0) (r / 16), hexDigitChar (u 1) (r % 16),
      hexDigitChar (u 2) (g / 16), hexDigitChar (u 3) (g % 16),
      hexDigitChar (u 4) (b / 16), hexDigitChar (u 5) (b % 16)] = true := by
    simp [isSixHex, d1, d2, d3, d4, d5, d6]
  have hv : (some ⟨byteOf (hexDigitChar (u 0) (r / 16)) (hexDigitChar (u 1) (r % 16)),
      byteOf (hexDigitChar (u 2) (g / 16)) (hexDigitChar (u 3) (g % 16)),
      byteOf (hexDigitChar (u 4) (b / 16)) (hexDigitChar (u 5) (b % 16))⟩ : Option Rgb) =
      some ⟨.num r, .num g, .num b⟩ := by
    rw [byteOf_hexByte _ _ r (by omega), byteOf_hexByte _ _ g (by omega),
      byteOf_hexByte _ _ b (by omega)]
  rw [← hv]
  cases sharp with
  | false => exact hexToRgb_six _ _ _ _ _ _ _ rfl h6
  | true => exact hexToRgb_sharp_six _ _ _ _ _ _ _ rfl h6

/-- Witness of C8: the default colour of the sphere, `#460a50`, is decoded to
70, 10, 80. -/
theorem hexToRgb_decodes_rendering_witness :
    colourString true (fun _ => false) 70 10 80 = "#460a50" ∧
    hexToRgb (colourString true (fun _ => false) 70 10 80) = some ⟨.num 70, .num 10, .num 80⟩ :=
  ⟨by decide,
    (hexToRgb_decodes_rendering true (fun _ => false) 70 10 80 (by decide) (by decide)
      (by decide)).1⟩

/-- C9: `hexToRgb` returns null if and only if its input is not an optional
single `#` followed by exactly six hexadecimal digits and nothing else. The
three-digit shorthand, eight digits, leading or trailing characters (a space, a
newline), a doubled `#` and the empty string all give null. The function is
total: no input string makes it throw. -/
theorem hexToRgb_null_iff :
    (∀ hex : String, hexToRgb hex = none ↔ isHexColour hex = false) ∧
    hexToRgb "#fff" = none ∧ hexToRgb "#460a50ff" = none ∧ hexToRgb " #460a50" = none ∧
    hexToRgb "#460a50 " = none ∧ hexToRgb "#460a50\n" = none ∧ hexToRgb "##460a50" = none ∧
    hexToRgb "" = none := by
  refine ⟨hexToRgb_eq_none_iff, ?_, ?_, ?_, ?_, ?_, ?_, ?_⟩ <;> decide

/-- C10: `createMat` reads the components of `hexToRgb(paramList.objColor)`
without a null check. When `objColor` is an optional `#` and six hexadecimal
digits the result is not null, the three values interpolated into the source of
the fragment shader are integers in `0..255`, and each component of `col2` lies
in `[0, 1]`; the default `#460a50` gives 70, 10, 80. For every `objColor` that
`hexToRgb` rejects, `createMat` throws and builds no material. -/
theorem createMat_color_safe (paramList : Params) (data : MatData)
    (h : isHexColour paramList.objColor = true) :
    (∃ r g b : Nat, r ≤ 255 ∧ g ≤ 255 ∧ b ≤ 255 ∧
      hexToRgb paramList.objColor = some ⟨.num r, .num g, .num b⟩ ∧
      (∃ m, createMat paramList data = .ok m ∧
        m.fragmentShader = fragmentShaderSource ⟨.num r, .num g, .num b⟩) ∧
      (0 ≤ (col2 r g b).x ∧ (col2 r g b).x ≤ 1) ∧ (0 ≤ (col2 r g b).y ∧ (col2 r g b).y ≤ 1) ∧
      (0 ≤ (col2 r g b).z ∧ (col2 r g b).z ≤ 1)) ∧
    hexToRgb params.objColor = some ⟨.num 70, .num 10, .num 80⟩ ∧
    ∀ q : Params, hexToRgb q.objColor = none →
      createMat q data = .error (.typeError "Cannot read properties of null (reading r)") := by
  refine ⟨?_, by decide, ?_⟩
  · obtain ⟨res, hres⟩ := (hexToRgb_isSome_iff _).mpr h
    obtain ⟨r, g, b, hr, hg, hb, rfl⟩ := hexToRgb_bounds _ _ hres
    refine ⟨r, g, b, hr, hg, hb, hres, ⟨_, createMat_of_some _ _ _ hres, rfl⟩, ?_, ?_, ?_⟩ <;>
      simp only [col2, Int.cast_natCast] <;>
      constructor
    all_goals first
      | positivity
      | (rw [div_le_one (by norm_num)]; exact_mod_cast (by assumption))
  · intro q hq
    exact createMat_of_none _ _ hq

/-- Witness of C10: the default parameter list. -/
theorem createMat_color_safe_witness :
    isHexColour params.objColor = true ∧
    hexToRgb params.objColor = some ⟨.num 70, .num 10, .num 80⟩ :=
  ⟨by decide, (createMat_color_safe params ⟨⟨"data:,"⟩⟩ (by decide)).2.1⟩


/-! ## Claims on the two shaders -/

/-- Counterexample to C2: the vertex is not left at `p` by a black pixel. With
the material of the default parameters, identity matrices, the vertex at
`p = (1, 0, 0)` with normal `(1, 0, 0)` and a black heightmap (brightness 0 for
each measure), `p + n * zScale * 6 * b` is `p`, but the shader emits the
homogeneous position `(1, 0, 0, 1/2)`, which is the point `(2, 0, 0)`; with a
white heightmap it emits `(7, 0, 0, 1/2)`, the point `(14, 0, 0)`, 12 units
further along the normal and not 6. -/
theorem vertex_not_left_at_position :
    (createMat params ⟨⟨"data:,"⟩⟩).toOption.bind
        (fun m => runVertexShader (exactGpu (constantSampler blackPixel)) m.vertexShader
          m.uniforms Mat4.identity Mat4.identity ⟨1, 0, 0⟩ ⟨1, 0, 0⟩ ⟨0, 0⟩)
      = some ⟨0, ⟨1, 0, 0, 1 / 2⟩⟩ ∧
    isGrey blackPixel ∧ brightnessMean blackPixel = 0 ∧ brightnessLuma blackPixel = 0 ∧
    brightnessValue blackPixel = 0 ∧
    displacedBy ⟨1, 0, 0⟩ ⟨1, 0, 0⟩ 0 = ⟨1, 0, 0⟩ ∧
    Vec4.point ⟨1, 0, 0, 1 / 2⟩ = ⟨2, 0, 0⟩ ∧
    (createMat params ⟨⟨"data:,"⟩⟩).toOption.bind
        (fun m => runVertexShader (exactGpu (constantSampler whitePixel)) m.vertexShader
          m.uniforms Mat4.identity Mat4.identity ⟨1, 0, 0⟩ ⟨1, 0, 0⟩ ⟨0, 0⟩)
      = some ⟨6, ⟨7, 0, 0, 1 / 2⟩⟩ ∧
    Vec4.point ⟨7, 0, 0, 1 / 2⟩ = ⟨14, 0, 0⟩ := by
  have hc : hexToRgb params.objColor = some ⟨.num 70, .num 10, .num 80⟩ := by decide
  rw [createMat_of_some _ _ _ hc]
  simp only [Except.toOption, Option.bind, runVertexShader_source]
  simp only [exactGpu, constantSampler, blackPixel, whitePixel, Mat4.identity, Mat4.mul,
    Mat4.mulVec, Vec4.add, Vec4.scale, isGrey, brightnessMean, brightnessLuma, brightnessValue,
    displacedBy, Vec4.point]
  norm_num

/-- C2, amended: for every vertex (position `p`, normal `n`, texture coordinate
`uv`) and every heightmap, the vertex shader that `createMat` builds writes
`vAmount` and emits `gl_Position = projectionMatrix * modelViewMatrix *
vec4(p + n * zScale * 6 * b, 0.5)`, where `b` is the brightness of the grey
heightmap pixel sampled at `uv` (its red channel) and `zScale = 1`. The
homogeneous coordinate is 0.5, so that the vertex is drawn at twice
`p + n * zScale * 6 * b`. Two pixels of equal brightness give equal output; a
black pixel gives `vec4(p, 0.5)`, the point `2 p`, and a white pixel
`vec4(p + 6 n, 0.5)`, 12 units further along `n`. The shader is the source
text of the material, read as `vertexProgram`; on every GPU it computes the
expression of its source in the operations of that GPU, and the equations with
`b` hold in exact arithmetic. -/
theorem vertexShader_displacement (paramList : Params) (data : MatData) (m : ShaderMaterial)
    (texture2D : Texture → Vec2 ℚ → Vec4 ℚ) (projectionMatrix modelViewMatrix : Mat4 ℚ)
    (position normal : Vec3 ℚ) (uv : Vec2 ℚ) (hm : createMat paramList data = .ok m)
    (hgrey : isGrey (texture2D data.texture uv)) :
    (∀ (F : Type) (G : Gpu F) (pm mv : Mat4 F) (p n : Vec3 F) (c : Vec2 F),
      runVertexShader G m.vertexShader m.uniforms pm mv p n c =
        some
          { vAmount := G.mul (G.texture2D data.texture c).x (G.lit 6)
            gl_Position := G.mulMatVec (G.mulMat pm mv)
              ⟨G.add p.x (G.mul (G.mul n.x (G.lit 1)) (G.mul (G.texture2D data.texture c).x (G.lit 6))),
               G.add p.y (G.mul (G.mul n.y (G.lit 1)) (G.mul (G.texture2D data.texture c).x (G.lit 6))),
               G.add p.z (G.mul (G.mul n.z (G.lit 1)) (G.mul (G.texture2D data.texture c).x (G.lit 6))),
               G.lit (1 / 2)⟩ }) ∧
    (brightnessMean (texture2D data.texture uv) = (texture2D data.texture uv).x ∧
      brightnessLuma (texture2D data.texture uv) = (texture2D data.texture uv).x ∧
      brightnessValue (texture2D data.texture uv) = (texture2D data.texture uv).x) ∧
    runVertexShader (exactGpu texture2D) m.vertexShader m.uniforms projectionMatrix
        modelViewMatrix position normal uv =
      some
        { vAmount := 6 * brightnessMean (texture2D data.texture uv)
          gl_Position := (projectionMatrix.mul modelViewMatrix).mulVec
            (homogeneous (displacedBy position normal (brightnessMean (texture2D data.texture uv)))
              (1 / 2)) } ∧
    (projectionMatrix.mul modelViewMatrix).mulVec
        (homogeneous (displacedBy position normal (brightnessMean (texture2D data.texture uv)))
          (1 / 2)) =
      ((projectionMatrix.mul modelViewMatrix).mulVec
        (homogeneous (displacedBy position normal (brightnessMean (texture2D data.texture uv))).twice
          1)).scale (1 / 2) ∧
    (∀ (data2 : MatData) (m2 : ShaderMaterial) (uv2 : Vec2 ℚ),
      createMat paramList data2 = .ok m2 → isGrey (texture2D data2.texture uv2) →
      brightnessMean (texture2D data2.texture uv2) = brightnessMean (texture2D data.texture uv) →
      runVertexShader (exactGpu texture2D) m2.vertexShader m2.uniforms projectionMatrix
          modelViewMatrix position normal uv2 =
        runVertexShader (exactGpu texture2D) m.vertexShader m.uniforms projectionMatrix
          modelViewMatrix position normal uv) ∧
    (brightnessMean (texture2D data.texture uv) = 0 →
      runVertexShader (exactGpu texture2D) m.vertexShader m.uniforms projectionMatrix
          modelViewMatrix position normal uv =
        some ⟨0, (projectionMatrix.mul modelViewMatrix).mulVec (homogeneous position (1 / 2))⟩) ∧
    (brightnessMean (texture2D data.texture uv) = 1 →
      runVertexShader (exactGpu texture2D) m.vertexShader m.uniforms projectionMatrix
          modelViewMatrix position normal uv =
        some ⟨6, (projectionMatrix.mul modelViewMatrix).mulVec
          (homogeneous ⟨position.x + 6 * normal.x, position.y + 6 * normal.y,
            position.z + 6 * normal.z⟩ (1 / 2))⟩) ∧
    parseShader m.vertexShader = some vertexProgram := by
  have hsrc : parseShader vertexShaderSource = some vertexProgram := by
    set_option maxRecDepth 100000 in decide
  have bright : ∀ s : Vec4 ℚ, isGrey s → brightnessMean s = s.x := by
    intro s hs
    obtain ⟨h1, h2⟩ := hs
    simp only [brightnessMean, ← h2, ← h1]
    ring
  have key : ∀ (d : MatData) (k : ShaderMaterial) (c : Vec2 ℚ), createMat paramList d = .ok k →
      isGrey (texture2D d.texture c) →
      runVertexShader (exactGpu texture2D) k.vertexShader k.uniforms projectionMatrix
          modelViewMatrix position normal c =
        some
          { vAmount := 6 * brightnessMean (texture2D d.texture c)
            gl_Position := (projectionMatrix.mul modelViewMatrix).mulVec
              (homogeneous (displacedBy position normal (brightnessMean (texture2D d.texture c)))
                (1 / 2)) } := by
    intro d k c hk hg
    obtain ⟨h1, h2⟩ := createMat_uniforms _ _ _ hk
    rw [createMat_vertexShader _ _ _ hk, runVertexShader_source, bright _ hg]
    simp only [exactGpu, h1, h2, homogeneous, displacedBy]
    congr 2
    · ring
    · congr 2 <;> ring
  obtain ⟨hx, hy⟩ := hgrey
  refine ⟨?_, ⟨bright _ ⟨hx, hy⟩, ?_, ?_⟩, key _ _ _ hm ⟨hx, hy⟩, ?_, ?_, ?_, ?_,
    (createMat_vertexShader _ _ _ hm) ▸ hsrc⟩
  · intro F G pm mv p n c
    obtain ⟨h1, h2⟩ := createMat_uniforms _ _ _ hm
    rw [createMat_vertexShader _ _ _ hm, runVertexShader_source, h1, h2]
  · simp only [brightnessLuma, ← hy, ← hx]
    ring
  · simp only [brightnessValue, ← hy, ← hx, max_self]
  · simp only [Mat4.mulVec, Vec4.add, Vec4.scale, homogeneous, Vec3.twice]
    congr 1 <;> ring
  · intro data2 m2 uv2 h2 hg2 hb
    rw [key _ _ _ h2 hg2, key _ _ _ hm ⟨hx, hy⟩, hb]
  · intro h0
    rw [key _ _ _ hm ⟨hx, hy⟩, h0]
    simp [displacedBy, homogeneous]
  · intro h1
    rw [key _ _ _ hm ⟨hx, hy⟩, h1]
    simp only [displacedBy, homogeneous]
    congr 4 <;> ring

/-- Witness of C2, amended: the material of the default parameters, a white
heightmap and identity matrices. -/
theorem vertexShader_displacement_witness :
    (∃ m, createMat params ⟨⟨"data:,"⟩⟩ = .ok m ∧
      runVertexShader (exactGpu (constantSampler whitePixel)) m.vertexShader m.uniforms
          Mat4.identity Mat4.identity ⟨1, 0, 0⟩ ⟨1, 0, 0⟩ ⟨0, 0⟩ =
        some
          { vAmount := 6 * brightnessMean (constantSampler whitePixel ⟨"data:,"⟩ ⟨0, 0⟩)
            gl_Position := (Mat4.identity.mul Mat4.identity).mulVec
              (homogeneous (displacedBy ⟨1, 0, 0⟩ ⟨1, 0, 0⟩
                (brightnessMean (constantSampler whitePixel ⟨"data:,"⟩ ⟨0, 0⟩))) (1 / 2)) }) ∧
    isGrey (constantSampler whitePixel ⟨"data:,"⟩ ⟨0, 0⟩) :=
  ⟨⟨_, createMat_of_some params ⟨⟨"data:,"⟩⟩ ⟨.num 70, .num 10, .num 80⟩ (by decide),
    (vertexShader_displacement params ⟨⟨"data:,"⟩⟩ _ (constantSampler whitePixel) Mat4.identity
      Mat4.identity ⟨1, 0, 0⟩ ⟨1, 0, 0⟩ ⟨0, 0⟩
      (createMat_of_some params ⟨⟨"data:,"⟩⟩ ⟨.num 70, .num 10, .num 80⟩ (by decide))
      ⟨rfl, rfl⟩).2.2.1⟩,
    ⟨rfl, rfl⟩⟩


/-- C6: the fragment shader that `createMat` builds tints the result with the
base colour of the sphere. When `objColor` has the components `(R, G, B)`, the
source of the fragment shader interpolates `R`, `G`, `B`; the vertex shader
writes `vAmount = heightData.r * 6`; and on every GPU the fragment colour is
`vec4(mix(vColor, col2, 0.5), 1.0)` with the grey level `vColor = vAmount / 9`
and the base colour `col2 = (R/255, G/255, B/255)`, computed in the operations
of that GPU. In exact arithmetic, where `mix` with 0.5 is the equal-weight mix,
the colour at `vAmount = 6 h` is `((6h/9 + R/255)/2, (6h/9 + G/255)/2,
(6h/9 + B/255)/2)` with alpha 1. -/
theorem fragmentShader_tint (paramList : Params) (data : MatData) (R G B : Nat)
    (hc : hexToRgb paramList.objColor = some ⟨.num R, .num G, .num B⟩) :
    ∃ m, createMat paramList data = .ok m ∧
      m.fragmentShader = fragmentShaderSource ⟨.num R, .num G, .num B⟩ ∧
      (∀ (F : Type) (gpu : Gpu F) (pm mv : Mat4 F) (p n : Vec3 F) (c : Vec2 F),
        (runVertexShader gpu m.vertexShader m.uniforms pm mv p n c).map (fun o => o.vAmount) =
          some (gpu.mul (gpu.texture2D data.texture c).x (gpu.lit 6))) ∧
      (∀ (F : Type) (gpu : Gpu F) (v : F),
        runFragmentShader gpu m.fragmentShader m.uniforms v =
          some
            ⟨gpu.mix (gpu.div v (gpu.lit 9)) (gpu.div (gpu.lit R) (gpu.lit 255)) (gpu.lit (1 / 2)),
             gpu.mix (gpu.div v (gpu.lit 9)) (gpu.div (gpu.lit G) (gpu.lit 255)) (gpu.lit (1 / 2)),
             gpu.mix (gpu.div v (gpu.lit 9)) (gpu.div (gpu.lit B) (gpu.lit 255)) (gpu.lit (1 / 2)),
             gpu.lit 1⟩) ∧
      (∀ (texture2D : Texture → Vec2 ℚ → Vec4 ℚ) (h : ℚ),
        runFragmentShader (exactGpu texture2D) m.fragmentShader m.uniforms (6 * h) =
          some ⟨(6 * h / 9 + R / 255) / 2, (6 * h / 9 + G / 255) / 2, (6 * h / 9 + B / 255) / 2,
            1⟩) := by
  obtain ⟨x, y, z, hx, hy, hz, he⟩ := hexToRgb_bounds _ _ hc
  simp only [Rgb.mk.injEq, JsNumber.num.injEq, Nat.cast_inj] at he
  obtain ⟨rfl, rfl, rfl⟩ := he
  have hR : R < 256 := by omega
  have hG : G < 256 := by omega
  have hB : B < 256 := by omega
  refine ⟨_, createMat_of_some _ _ _ hc, rfl, ?_, ?_, ?_⟩
  · intro F gpu pm mv p n c
    simp only [runVertexShader_source, Option.map]
  · intro F gpu v
    exact runFragmentShader_source gpu _ v R G B hR hG hB
  · intro texture2D h
    rw [runFragmentShader_source _ _ _ R G B hR hG hB]
    simp only [exactGpu]
    congr 2 <;> ring

/-- Witness of C6: the default colour `#460a50`. -/
theorem fragmentShader_tint_witness :
    hexToRgb params.objColor = some ⟨.num (70 : Nat), .num (10 : Nat), .num (80 : Nat)⟩ ∧
    ∃ m, createMat params ⟨⟨"data:,"⟩⟩ = .ok m ∧
      m.fragmentShader = fragmentShaderSource ⟨.num (70 : Nat), .num (10 : Nat), .num (80 : Nat)⟩ ∧
      ∀ (texture2D : Texture → Vec2 ℚ → Vec4 ℚ) (h : ℚ),
        runFragmentShader (exactGpu texture2D) m.fragmentShader m.uniforms (6 * h) =
          some ⟨(6 * h / 9 + (70 : Nat) / 255) / 2, (6 * h / 9 + (10 : Nat) / 255) / 2,
            (6 * h / 9 + (80 : Nat) / 255) / 2, 1⟩ := by
  obtain ⟨m, h1, h2, _, _, h5⟩ := fragmentShader_tint params ⟨⟨"data:,"⟩⟩ 70 10 80 (by decide)
  exact ⟨by decide, m, h1, h2, h5⟩


/-! ## Claims on the control panel, the loads and the sphere -/

/-- C4: every parameter that the constructor `params` defines is bound to
exactly one controller of the panel, no controller is bound to a property that
`params` does not define, and the `onChange` listener of every controller is
`paramHandler`; so a change of any controller assigns the property and then
runs `paramHandler`, which regenerates the maze from the new parameter list and
requests its texture. -/
theorem gui_binds_params (mazeGen : MazeGen) (i : Nat) (c : Controller) (value : JsValue)
    (p : Params) (w : World) (hc : gui[i]? = some c)
    (hp : w.paramList.set c.property value = some p) :
    (∀ f ∈ paramsFields, (gui.filter (fun k => k.property == f)).length = 1) ∧
    (∀ k ∈ gui, k.property ∈ paramsFields) ∧
    (∀ (q r : Params) (f : String) (v : JsValue), q.set f v = some r → f ∈ paramsFields) ∧
    (∀ f ∈ paramsFields, ∃ v, (params.set f v).isSome = true) ∧
    (∀ k ∈ gui, k.onChange = some .paramHandler) ∧
    guiSetValue mazeGen i value w = paramHandler mazeGen { w with paramList := p } ∧
    (guiSetValue mazeGen i value w).pending =
      w.pending ++ [⟨initMaze mazeGen p, some .setMaterial⟩] := by
  have hon : ∀ k ∈ gui, k.onChange = some .paramHandler := by decide
  have hrun : guiSetValue mazeGen i value w = paramHandler mazeGen { w with paramList := p } := by
    have hk := hon c (List.getElem?_mem hc)
    simp only [guiSetValue, hc, hp, hk, Listener.run]
  refine ⟨by decide, by decide, set_mem_paramsFields, ?_, hon, hrun, by rw [hrun]; rfl⟩
  intro f hf
  simp only [paramsFields, List.mem_cons, List.mem_singleton, List.not_mem_nil, or_false] at hf
  rcases hf with rfl | rfl | rfl | rfl | rfl | rfl | rfl | rfl | rfl
  · exact ⟨.number 0, by decide⟩
  · exact ⟨.number 0, by decide⟩
  · exact ⟨.number 0, by decide⟩
  · exact ⟨.number 0, by decide⟩
  · exact ⟨.string "", by decide⟩
  · exact ⟨.string "", by decide⟩
  · exact ⟨.string "", by decide⟩
  · exact ⟨.number 0, by decide⟩
  · exact ⟨.string "", by decide⟩

/-- Witness of C4: the seed is changed to `2` in the state that the script
leaves. -/
theorem gui_binds_params_witness :
    gui[8]? = some ⟨false, "seed", "Seed for the Random Number Generator", some .paramHandler⟩ ∧
    (main seedUri).paramList.set "seed" (.string "2") = some { params with seed := "2" } ∧
    (guiSetValue seedUri 8 (.string "2") (main seedUri)).pending =
      (main seedUri).pending ++
        [⟨initMaze seedUri { params with seed := "2" }, some .setMaterial⟩] :=
  ⟨by decide, by decide,
    (gui_binds_params seedUri 8
      ⟨false, "seed", "Seed for the Random Number Generator", some .paramHandler⟩ (.string "2")
      { params with seed := "2" } (main seedUri) (by decide) (by decide)).2.2.2.2.2.2⟩

/-- Counterexample to C1, in two runs. In the first the load of the script
fails, so that no sphere is created; then the seed changes and the load of the
new maze succeeds: the callback throws at `mazeSphere.material = mat` and sets
no material. In the second the sphere exists, the colour is changed to the
shorthand `#fff` and the load succeeds: `createMat` throws, the callback is not
reached, and the sphere keeps the material of the first texture and colour. -/
theorem paramHandler_callback_without_material :
    (run seedUri (main seedUri) [.settle 0 .error, .change 8 (.string "2")]).pending =
      [⟨initMaze seedUri { params with seed := "2" }, some .setMaterial⟩] ∧
    (∃ mat, createMat { params with seed := "2" }
      ⟨⟨initMaze seedUri { params with seed := "2" }⟩⟩ = .ok mat) ∧
    (run seedUri (main seedUri)
      [.settle 0 .error, .change 8 (.string "2"), .settle 0 .load]).mazeSphere = none ∧
    (run seedUri (main seedUri)
      [.settle 0 .error, .change 8 (.string "2"), .settle 0 .load]).meshes = [] ∧
    (run seedUri (main seedUri)
      [.settle 0 .error, .change 8 (.string "2"), .settle 0 .load]).uncaught =
      [.typeError "Cannot set properties of undefined (setting material)"] ∧
    (run seedUri (main seedUri) [.settle 0 .load, .change 7 (.string "#fff")]).pending =
      [⟨initMaze seedUri { params with objColor := "#fff" }, some .setMaterial⟩] ∧
    (run seedUri (main seedUri)
      [.settle 0 .load, .change 7 (.string "#fff"), .settle 0 .load]).meshes =
      (run seedUri (main seedUri) [.settle 0 .load]).meshes ∧
    (run seedUri (main seedUri)
      [.settle 0 .load, .change 7 (.string "#fff"), .settle 0 .load]).uncaught =
      [.typeError "Cannot read properties of null (reading r)"] := by
  refine ⟨by decide, ⟨_, createMat_of_some _ _ ⟨.num 70, .num 10, .num 80⟩ (by decide)⟩,
    by decide, by decide, by decide, by decide, rfl, by decide⟩

/-- C1, amended: `paramHandler` regenerates the data URI of the maze from the
current `paramList` synchronously and requests its texture, changing nothing
else. When that load succeeds in a state in which `mazeSphere` has been created
and `createMat` builds a material from the loaded texture (the `objColor` of
that moment is a valid colour), the callback sets `mazeSphere.material` to that
material and leaves every other field of the sphere, every other mesh, the
scene and every field of `paramList` unchanged. -/
theorem paramHandler_sets_material (mazeGen : MazeGen) (w w2 : World) (i ref : Nat) (mesh : Mesh)
    (mat : ShaderMaterial)
    (hreq : w2.pending[i]? = some ⟨initMaze mazeGen w.paramList, some .setMaterial⟩)
    (hs : w2.mazeSphere = some ref) (hm : w2.meshes[ref]? = some mesh)
    (hmat : createMat w2.paramList ⟨⟨initMaze mazeGen w.paramList⟩⟩ = .ok mat) :
    paramHandler mazeGen w =
      { w with pending := w.pending ++ [⟨initMaze mazeGen w.paramList, some .setMaterial⟩] } ∧
    settle i .load w2 =
      { w2 with pending := w2.pending.eraseIdx i
                meshes := w2.meshes.set ref { mesh with material := mat } } ∧
    (settle i .load w2).meshes[ref]? =
      some { geometry := mesh.geometry, material := mat, rotation := mesh.rotation,
             position := mesh.position } ∧
    (∀ j, j ≠ ref → (settle i .load w2).meshes[j]? = w2.meshes[j]?) ∧
    (settle i .load w2).mazeSphere = w2.mazeSphere ∧
    (settle i .load w2).scene = w2.scene ∧
    (settle i .load w2).paramList = w2.paramList := by
  have h := settle_load_setMaterial i ref w2 _ mesh mat hreq hs hm hmat
  have hlt : ref < w2.meshes.length := by
    rcases Nat.lt_or_ge ref w2.meshes.length with hlt | hge
    · exact hlt
    · rw [List.getElem?_eq_none hge] at hm
      exact absurd hm (by simp)
  refine ⟨rfl, h, ?_, ?_, ?_, ?_, ?_⟩
  · rw [h]
    simp [List.getElem?_set, hlt]
  · intro j hj
    rw [h]
    simp [List.getElem?_set, Ne.symm hj]
  · rw [h]
  · rw [h]
  · rw [h]

/-- Witness of C1, amended: the sphere has been created, then `paramHandler`
runs and its load succeeds. -/
theorem paramHandler_sets_material_witness :
    (settle 0 .load (paramHandler seedUri (settle 0 .load (main seedUri)))).meshes[0]? =
      some { geometry := ⟨25, 100, 100⟩
             material :=
               { uniforms := { zTexture := ⟨initMaze seedUri params⟩, zScale := 1,
                               zLut := List.replicate 256 ⟨1 / 2, 2 / 5, 3 / 10⟩ }
                 vertexShader := vertexShaderSource
                 fragmentShader := fragmentShaderSource ⟨.num 70, .num 10, .num 80⟩
                 side := .DoubleSide
                 flatshading := true }
             rotation := ⟨-1 / 2, 0, 0⟩
             position := ⟨0, 0, 0⟩ } :=
  (paramHandler_sets_material seedUri (settle 0 .load (main seedUri))
    (paramHandler seedUri (settle 0 .load (main seedUri))) 0 0
    { geometry := ⟨25, 100, 100⟩
      material :=
        { uniforms := { zTexture := ⟨initMaze seedUri params⟩, zScale := 1,
                        zLut := List.replicate 256 ⟨1 / 2, 2 / 5, 3 / 10⟩ }
          vertexShader := vertexShaderSource
          fragmentShader := fragmentShaderSource ⟨.num 70, .num 10, .num 80⟩
          side := .DoubleSide
          flatshading := true }
      rotation := ⟨-1 / 2, 0, 0⟩
      position := ⟨0, 0, 0⟩ }
    _ (by decide) (by decide) rfl
    (createMat_of_some _ _ ⟨.num 70, .num 10, .num 80⟩ (by decide))).2.2.1


/-- Counterexample to C5: the colour is changed to the shorthand `#fff` before
the first load completes, then the first load succeeds. `createMat` throws in
the listener, so that the callback, which would have created the sphere, is not
called although the loader reported success. -/
theorem loadHeightMap_success_without_callback :
    (run seedUri (main seedUri) [.change 7 (.string "#fff")]).pending =
      [⟨"data:1", some .addSphere⟩, ⟨"data:1", some .setMaterial⟩] ∧
    (run seedUri (main seedUri) [.change 7 (.string "#fff"), .settle 0 .load]).pending =
      [⟨"data:1", some .setMaterial⟩] ∧
    (run seedUri (main seedUri) [.change 7 (.string "#fff"), .settle 0 .load]).mazeSphere = none ∧
    (run seedUri (main seedUri) [.change 7 (.string "#fff"), .settle 0 .load]).meshes = [] ∧
    (run seedUri (main seedUri) [.change 7 (.string "#fff"), .settle 0 .load]).scene =
      (main seedUri).scene ∧
    (run seedUri (main seedUri) [.change 7 (.string "#fff"), .settle 0 .load]).uncaught =
      [.typeError "Cannot read properties of null (reading r)"] := by
  refine ⟨by decide, by decide, by decide, by decide, rfl, by decide⟩

/-- C5, amended: `loadHeightMap` only hands a request to the loader. When the
loader reports success and `createMat` builds a material from the texture (the
colour `objColor` is valid), the listener calls the callback `cb` once, with
that material, and the request is settled. When the loader reports failure no
listener runs: `cb` is not called, no request is issued again, and `mazeSphere`,
the meshes and their materials, the scene and `paramList` are as before. -/
theorem loadHeightMap_outcomes (w : World) (i : Nat) (uri : String) (cb : Callback)
    (mat : ShaderMaterial) (hreq : w.pending[i]? = some ⟨uri, some cb⟩)
    (hmat : createMat w.paramList ⟨⟨uri⟩⟩ = .ok mat) :
    (∀ (u : String) (f : Option Callback) (v : World),
      loadHeightMap u f v = { v with pending := v.pending ++ [⟨u, f⟩] }) ∧
    onLoad (some cb) ⟨uri⟩ { w with pending := w.pending.eraseIdx i } =
      cb.call mat { w with pending := w.pending.eraseIdx i } ∧
    settle i .load w =
      (match cb.call mat { w with pending := w.pending.eraseIdx i } with
       | .ok w2 => w2
       | .error e => { w with pending := w.pending.eraseIdx i, uncaught := w.uncaught ++ [e] }) ∧
    (settle i .load w).pending = w.pending.eraseIdx i ∧
    (∀ (j : Nat) (v : World), settle j .error v = { v with pending := v.pending.eraseIdx j }) := by
  have hon : onLoad (some cb) ⟨uri⟩ { w with pending := w.pending.eraseIdx i } =
      cb.call mat { w with pending := w.pending.eraseIdx i } := by
    simp only [onLoad, hmat]
  have hset := settle_load i w _ hreq
  simp only [hon] at hset
  refine ⟨fun _ _ _ => rfl, hon, hset, ?_, settle_error⟩
  rw [hset]
  cases hc : cb.call mat { w with pending := w.pending.eraseIdx i } with
  | ok w2 => exact call_pending _ _ _ _ hc
  | error e => rfl

/-- Witness of C5, amended: the first load of the script succeeds and its callback
creates the sphere. -/
theorem loadHeightMap_outcomes_witness :
    (main seedUri).pending[0]? = some ⟨"data:1", some .addSphere⟩ ∧
    (settle 0 .load (main seedUri)).pending = (main seedUri).pending.eraseIdx 0 ∧
    (settle 0 .load (main seedUri)).mazeSphere = some 0 :=
  ⟨by decide,
    (loadHeightMap_outcomes (main seedUri) 0 "data:1" .addSphere _ (by decide)
      (createMat_of_some _ _ ⟨.num 70, .num 10, .num 80⟩ (by decide))).2.2.2.1,
    by decide⟩

/-- Counterexample to C7, in two runs. In the first the sphere exists, the seed
is changed, then the colour is changed to `red`, and both loads succeed
afterwards: each listener reads the colour of the moment of its completion,
`createMat` throws in both, and neither load sets the material, so that after
all loads the material is still that of the first load of the script. In the
second the seed is changed before the first load of the script completes and
the load of the change completes first: it finds no sphere, throws and sets no
material. -/
theorem loads_complete_without_material :
    (run seedUri (main seedUri)
      [.settle 0 .load, .change 8 (.string "2"), .change 7 (.string "red")]).pending =
      [⟨"data:2", some .setMaterial⟩, ⟨"data:2", some .setMaterial⟩] ∧
    (run seedUri (main seedUri)
      [.settle 0 .load, .change 8 (.string "2"), .change 7 (.string "red"),
        .settle 0 .load, .settle 0 .load]).pending = [] ∧
    (run seedUri (main seedUri)
      [.settle 0 .load, .change 8 (.string "2"), .change 7 (.string "red"),
        .settle 0 .load, .settle 0 .load]).meshes.map (fun m => m.material.uniforms.zTexture) =
      [⟨"data:1"⟩] ∧
    (run seedUri (main seedUri)
      [.settle 0 .load, .change 8 (.string "2"), .change 7 (.string "red"),
        .settle 0 .load, .settle 0 .load]).uncaught =
      [.typeError "Cannot read properties of null (reading r)",
        .typeError "Cannot read properties of null (reading r)"] ∧
    (run seedUri (main seedUri) [.change 8 (.string "2")]).pending =
      [⟨"data:1", some .addSphere⟩, ⟨"data:2", some .setMaterial⟩] ∧
    (run seedUri (main seedUri) [.change 8 (.string "2"), .settle 1 .load]).meshes = [] ∧
    (run seedUri (main seedUri) [.change 8 (.string "2"), .settle 1 .load]).uncaught =
      [.typeError "Cannot set properties of undefined (setting material)"] ∧
    (run seedUri (main seedUri)
      [.change 8 (.string "2"), .settle 1 .load, .settle 0 .load]).pending = [] ∧
    (run seedUri (main seedUri)
      [.change 8 (.string "2"), .settle 1 .load, .settle 0 .load]).meshes.map
        (fun m => m.material.uniforms.zTexture) = [⟨"data:1"⟩] := by
  refine ⟨by decide, by decide, by decide, by decide, by decide, by decide, by decide, by decide,
    by decide⟩

/-- C7, amended: the loads are not coordinated. A change of a parameter removes
no pending request and alters none. After every sequence of events, a load of a
request of `paramHandler` that succeeds while `mazeSphere` exists and `createMat`
builds a material (the `objColor` of that moment is a valid colour) sets
`mazeSphere.material` to the material of its own texture, whatever was set
before. Hence, after every sequence of events from the state that the script
leaves, and so after all loads have completed, the material of the sphere is
that of the last load that set one: the last load that completed successfully
with `createMat` building a material, the sphere existing or being created by
it. In the interleaving where the seed is changed to `2` and then to `3` and the
second load completes before the first, the material left on the sphere is the
one of the maze of seed `2`, not of the latest parameters. -/
theorem loads_not_coordinated (mazeGen : MazeGen) (events : List Event) (i ref : Nat)
    (uri : String) (mesh : Mesh) (mat : ShaderMaterial)
    (hreq : (run mazeGen (main mazeGen) events).pending[i]? = some ⟨uri, some .setMaterial⟩)
    (hs : (run mazeGen (main mazeGen) events).mazeSphere = some ref)
    (hm : (run mazeGen (main mazeGen) events).meshes[ref]? = some mesh)
    (hmat : createMat (run mazeGen (main mazeGen) events).paramList ⟨⟨uri⟩⟩ = .ok mat) :
    (∀ (w : World) (j : Nat) (v : JsValue),
      ∃ l, (guiSetValue mazeGen j v w).pending = w.pending ++ l) ∧
    (run mazeGen (main mazeGen) (events ++ [.settle i .load])).mazeSphere = some ref ∧
    (run mazeGen (main mazeGen) (events ++ [.settle i .load])).meshes[ref]? =
      some { mesh with material := mat } ∧
    mat.uniforms.zTexture = ⟨uri⟩ ∧
    (run mazeGen (main mazeGen) (events ++ [.settle i .load])).pending =
      (run mazeGen (main mazeGen) events).pending.eraseIdx i ∧
    (∀ all : List Event,
      sphereMaterial (run mazeGen (main mazeGen) all) =
        lastLoadMaterial mazeGen (main mazeGen) none all) ∧
    lastLoadMaterial mazeGen (main mazeGen) none (events ++ [.settle i .load]) = some mat ∧
    (run mazeGen (main mazeGen)
      [.settle 0 .load, .change 8 (.string "2"), .change 8 (.string "3"),
        .settle 1 .load, .settle 0 .load]).pending = [] ∧
    (run mazeGen (main mazeGen)
      [.settle 0 .load, .change 8 (.string "2"), .change 8 (.string "3"),
        .settle 1 .load, .settle 0 .load]).paramList = { params with seed := "3" } ∧
    (run mazeGen (main mazeGen)
      [.settle 0 .load, .change 8 (.string "2"), .change 8 (.string "3"),
        .settle 1 .load, .settle 0 .load]).meshes.map (fun m => m.material.uniforms.zTexture) =
      [⟨initMaze mazeGen { params with seed := "2" }⟩] := by
  have h := settle_load_setMaterial i ref _ uri mesh mat hreq hs hm hmat
  have hlt : ref < (run mazeGen (main mazeGen) events).meshes.length := by
    rcases Nat.lt_or_ge ref (run mazeGen (main mazeGen) events).meshes.length with hlt | hge
    · exact hlt
    · rw [List.getElem?_eq_none hge] at hm
      exact absurd hm (by simp)
  have hall : ∀ all : List Event,
      sphereMaterial (run mazeGen (main mazeGen) all) =
        lastLoadMaterial mazeGen (main mazeGen) none all :=
    fun all => run_sphereMaterial mazeGen all (main mazeGen) (main_sphereValid mazeGen)
  have hnew : (run mazeGen (main mazeGen) (events ++ [.settle i .load])).meshes[ref]? =
      some { mesh with material := mat } := by
    rw [run_append_one, step, h]
    simp [List.getElem?_set, hlt]
  have hsph : (run mazeGen (main mazeGen) (events ++ [.settle i .load])).mazeSphere = some ref := by
    rw [run_append_one, step, h]
    exact hs
  refine ⟨fun w j v => guiSetValue_pending mazeGen j v w, hsph, hnew,
    (createMat_uniforms _ _ _ hmat).1, ?_, hall, ?_, rfl, rfl, rfl⟩
  · rw [run_append_one, step, h]
  · rw [← hall]
    simp only [sphereMaterial, hsph, hnew, Option.map]

/-- Witness of C7, amended: the sphere exists, the seed is changed to `2`, and the
load of the new maze succeeds. -/
theorem loads_not_coordinated_witness :
    (run seedUri (main seedUri)
      [.settle 0 .load, .change 8 (.string "2")]).pending[0]? =
      some ⟨"data:2", some .setMaterial⟩ ∧
    (run seedUri (main seedUri)
      ([.settle 0 .load, .change 8 (.string "2")] ++ [.settle 0 .load])).mazeSphere = some 0 :=
  ⟨by decide,
    (loads_not_coordinated seedUri [.settle 0 .load, .change 8 (.string "2")] 0 0 "data:2"
      { geometry := ⟨25, 100, 100⟩
        material :=
          { uniforms := { zTexture := ⟨"data:1"⟩, zScale := 1,
                          zLut := List.replicate 256 ⟨1 / 2, 2 / 5, 3 / 10⟩ }
            vertexShader := vertexShaderSource
            fragmentShader := fragmentShaderSource ⟨.num 70, .num 10, .num 80⟩
            side := .DoubleSide
            flatshading := true }
        rotation := ⟨-1 / 2, 0, 0⟩
        position := ⟨0, 0, 0⟩ }
      _ (by decide) (by decide) rfl
      (createMat_of_some _ _ ⟨.num 70, .num 10, .num 80⟩ (by decide))).2.1⟩


end MazeTexture
